import Mathlib

/-!
Verification development for the benchmark-report pipeline of this repository:
the Normalizer (`format_benchmark_data.py`), the Comparator
(`benchstat_simulator.py`) and the TableReflow post-processor
(`benchmark_formatter.py`).  Lines of text are embedded as `List Char`
(Python `len` counts code points, matching `List.length`); Python floats are
embedded as exact rationals `ℚ`; the Comparator's geometric mean, which uses
`math.exp`/`math.log`, is embedded over `ℝ`.  Fallible code is embedded with
`Except`/`Option`.
-/

/-- Decidable equality of `Except` results, used to evaluate the embedded
fallible functions on concrete inputs. -/
instance {ε α : Type} [DecidableEq ε] [DecidableEq α] : DecidableEq (Except ε α)
  | Except.error e, Except.error f =>
    if h : e = f then Decidable.isTrue (by rw [h])
    else Decidable.isFalse (fun c => h (Except.error.inj c))
  | Except.error _, Except.ok _ => Decidable.isFalse (fun c => Except.noConfusion c)
  | Except.ok _, Except.error _ => Decidable.isFalse (fun c => Except.noConfusion c)
  | Except.ok a, Except.ok b =>
    if h : a = b then Decidable.isTrue (by rw [h])
    else Decidable.isFalse (fun c => h (Except.ok.inj c))

namespace Bench

/-- Whitespace characters recognised by Python's `str.strip` / `str.split` /
`\s` for the ASCII range that can occur in these reports. -/
def isSpace (c : Char) : Bool :=
  c = ' ' || c = '\t' || c = '\n' || c = '\r' || c = '\x0b' || c = '\x0c'

/-- Python `str.lstrip()`. -/
def lstrip (cs : List Char) : List Char := cs.dropWhile isSpace

/-- Python `str.rstrip()`. -/
def rstrip (cs : List Char) : List Char := (cs.reverse.dropWhile isSpace).reverse

/-- Python `str.strip()`. -/
def stripWs (cs : List Char) : List Char := lstrip (rstrip cs)

/-- A run of `n` spaces. -/
def spaces (n : Nat) : List Char := List.replicate n ' '

/-- Python `str.ljust(n)`: pad on the right with spaces up to width `n`. -/
def ljust (cs : List Char) (n : Nat) : List Char := cs ++ spaces (n - cs.length)

/-- Python substring test `needle in hay`. -/
def containsSub (hay needle : List Char) : Bool :=
  hay.tails.any (fun t => needle.isPrefixOf t)

/-- Python `str.split()` (split on whitespace runs, dropping empty pieces),
with explicit fuel for termination; fuel `cs.length` always suffices. -/
def splitWsAux : Nat → List Char → List (List Char)
  | 0, _ => []
  | _ + 1, [] => []
  | fuel + 1, c :: rest =>
    if isSpace c then splitWsAux fuel rest
    else
      (c :: rest).takeWhile (fun x => !isSpace x) ::
        splitWsAux fuel ((c :: rest).dropWhile (fun x => !isSpace x))

/-- Python `str.split()` on a line. -/
def splitWs (cs : List Char) : List (List Char) := splitWsAux cs.length cs

/-- Python `token.split(sep)[0]`: everything before the first `sep`. -/
def beforeFirst (cs : List Char) (sep : Char) : List Char :=
  cs.takeWhile (fun c => c ≠ sep)

/-- Decimal digits of a natural number, little helper with fuel. -/
def natStrAux : Nat → Nat → List Char
  | 0, _ => []
  | fuel + 1, n =>
    if n < 10 then [Nat.digitChar n]
    else natStrAux fuel (n / 10) ++ [Nat.digitChar (n % 10)]

/-- Decimal rendering of a natural number. -/
def natStr (n : Nat) : List Char := natStrAux (n + 1) n

/-- Two-digit zero-padded rendering of `n < 100`. -/
def pad2 (n : Nat) : List Char := if n < 10 then '0' :: natStr n else natStr n

/-- Round-half-to-even to an integer, the rounding used by Python's `round`
and by `printf`-style `.2f` formatting (embedded over exact rationals). -/
def rhe (q : ℚ) : ℤ :=
  let f : ℤ := ⌊q⌋
  let r : ℚ := q - f
  if r < 1/2 then f
  else if 1/2 < r then f + 1
  else if f % 2 = 0 then f else f + 1

/-- Python `round(x, 2)` over the rational embedding. -/
def round2 (q : ℚ) : ℚ := (rhe (q * 100) : ℚ) / 100

/-- Python `f"{v:.2f}"`: no forced sign, two decimals, sign taken from the
value (so e.g. a tiny negative renders `-0.00`). -/
def fmt2 (v : ℚ) : List Char :=
  let n : Nat := (rhe (v * 100)).natAbs
  (if v < 0 then ['-'] else []) ++ natStr (n / 100) ++ '.' :: pad2 (n % 100)

/-- Python `f"{v:+.2f}"`: like `fmt2` but nonnegative values get `+`. -/
def fmtPlus2 (v : ℚ) : List Char :=
  let n : Nat := (rhe (v * 100)).natAbs
  (if v < 0 then ['-'] else ['+']) ++ natStr (n / 100) ++ '.' :: pad2 (n % 100)

end Bench

namespace Reflow
/-!
Embedding of `.github/scripts/benchmark_formatter.py` (TableReflow).
-/

open Bench

/-- The superscript glyphs removed by `clean_superscripts` and recognised at
footnote starts: the character class `[¹²³⁴⁵⁶⁷⁸⁹⁰]`. -/
def supers : List Char := "¹²³⁴⁵⁶⁷⁸⁹⁰".data

/-- `clean_superscripts`: `re.sub(r"[¹²³⁴⁵⁶⁷⁸⁹⁰]", "", text)`. -/
def clean_superscripts (cs : List Char) : List Char :=
  cs.filter (fun c => !(supers.contains c))

/-- `get_icon`: trend glyph from the percentage difference. -/
def get_icon (diff_val : ℚ) : List Char :=
  if diff_val > 10 then "🐌".data
  else if diff_val < -10 then "🚀".data
  else "➡️".data

/-- The character class `[a-zA-Zµ]` of the unit-suffix group in
`parse_val`'s regex. -/
def isAlphaMu (c : Char) : Bool :=
  ('a' ≤ c && c ≤ 'z') || ('A' ≤ c && c ≤ 'Z') || c = 'µ'

/-- Natural number denoted by a list of decimal digit characters. -/
def digitsToNat (ds : List Char) : Nat :=
  ds.foldl (fun a c => a * 10 + (c.toNat - 48)) 0

/-- Exact rational denoted by integer digits `ip` and fraction digits `fp`
(the value `float(m.group(1))` computes, idealised over `ℚ`). -/
def ratOfDigits (ip fp : List Char) : ℚ :=
  ((digitsToNat ip * 10 ^ fp.length + digitsToNat fp : ℕ) : ℚ) / ((10 ^ fp.length : ℕ) : ℚ)

/-- The regex `^([-+]?\d*\.?\d+)([a-zA-Zµ]+)?$` of `parse_val`: on success
returns the numeric magnitude of group 1 and the (possibly empty) suffix
group 2. -/
def numMatch (cs : List Char) : Option (ℚ × List Char) :=
  let sgn : ℚ × List Char :=
    match cs with
    | '+' :: r => (1, r)
    | '-' :: r => (-1, r)
    | _ => (1, cs)
  let ip := sgn.2.takeWhile Char.isDigit
  let r1 := sgn.2.dropWhile Char.isDigit
  match r1 with
  | '.' :: r2 =>
    let fp := r2.takeWhile Char.isDigit
    let r3 := r2.dropWhile Char.isDigit
    if fp = [] then none
    else if r3.all isAlphaMu then some (sgn.1 * ratOfDigits ip fp, r3)
    else none
  | _ =>
    if ip = [] then none
    else if r1.all isAlphaMu then some (sgn.1 * ratOfDigits ip [], r1)
    else none

/-- The unit-suffix dispatch at the end of `parse_val`, acting on the suffix
after its `µ → u` replacement: scales the magnitude to seconds, or raises
`ValueError(f"Unexpected unit: {suffix}")` for an unrecognised suffix. -/
def unitValue (val : ℚ) (suffix : List Char) : Except (List Char) ℚ :=
  if suffix = "n".data ∨ suffix = "ns".data then Except.ok (val * (1 / 1000000000))
  else if suffix = "u".data ∨ suffix = "us".data then Except.ok (val * (1 / 1000000))
  else if suffix = "m".data ∨ suffix = "ms".data then Except.ok (val * (1 / 1000))
  else if suffix = "s".data then Except.ok val
  else if suffix = [] then Except.ok val
  else Except.error ("Unexpected unit: ".data ++ suffix)

/-- `parse_val(token)`: `Except.ok none` when the token is not numeric,
`Except.ok (some v)` for magnitude `v` in seconds, `Except.error` for the
raised `ValueError` on an unexpected unit. -/
def parse_val (token : List Char) : Except (List Char) (Option ℚ) :=
  if token.contains '%' || token.contains '=' then Except.ok none
  else
    let t1 := clean_superscripts token
    let t2 := stripWs (beforeFirst t1 '±')
    let t3 := stripWs (beforeFirst t2 '(')
    if t3 = [] then Except.ok none
    else
      match numMatch t3 with
      | none => Except.ok none
      | some vs =>
        let s := vs.2.map (fun c => if c = 'µ' then 'u' else c)
        match unitValue vs.1 s with
        | Except.ok q => Except.ok (some q)
        | Except.error e => Except.error e

/-- The token loop of `extract_two_numbers` (over `tokens[1:]`), carrying the
`found` accumulator and stopping once two values are found. -/
def etnGo : List (List Char) → List ℚ → Except (List Char) (List ℚ)
  | [], found => Except.ok found
  | t :: rest, found =>
    if t = "±".data ∨ t = "∞".data ∨ t = "~".data ∨ t = "│".data ∨ t = "|".data then
      etnGo rest found
    else if t.contains '%' || t.contains '=' then etnGo rest found
    else if "p=".data.isPrefixOf t ∨ "n=".data.isPrefixOf t then etnGo rest found
    else
      match parse_val t with
      | Except.error e => Except.error e
      | Except.ok none => etnGo rest found
      | Except.ok (some v) =>
        if (found ++ [v]).length = 2 then Except.ok (found ++ [v])
        else etnGo rest (found ++ [v])

/-- `extract_two_numbers(tokens)`: scan `tokens[1:]` for up to two numeric
magnitudes, propagating a `parse_val` error. -/
def extract_two_numbers (tokens : List (List Char)) : Except (List Char) (List ℚ) :=
  etnGo tokens.tail []

/-- Matcher for the pattern `(\S+?)-\d+(\s|$)` anchored at the current
position, with `g1` the characters the lazy group 1 has absorbed so far.
On success it returns the replacement `\1\2` together with the rest of the
input after the match.  The lazy `\S+?` grows one character at a time, which
is what the recursion into `tryFrom (g1 ++ ['-'])` reproduces when the
dash-digits-boundary continuation fails at the current split. -/
def tryFrom : List Char → List Char → Option (List Char × List Char)
  | _, [] => none
  | g1, '-' :: rest =>
    let ds := rest.takeWhile Char.isDigit
    let r3 := rest.dropWhile Char.isDigit
    if ds ≠ [] ∧ (r3 = [] ∨ isSpace (r3.headD 'x')) then
      match r3 with
      | [] => some (g1, [])
      | w :: r4 => some (g1 ++ [w], r4)
    else tryFrom (g1 ++ ['-']) rest
  | g1, c :: rest => if isSpace c then none else tryFrom (g1 ++ [c]) rest

/-- A match of `(\S+?)-\d+(\s|$)` starting exactly at the head of `cs`:
group 1 must begin with a non-space character. -/
def tryMatch (cs : List Char) : Option (List Char × List Char) :=
  match cs with
  | [] => none
  | c :: rest => if isSpace c then none else tryFrom [c] rest

/-- The global-substitution scan of `re.sub(r"(\S+?)-\d+(\s|$)", r"\1\2", _)`:
find the leftmost match, emit the replacement, continue after the match.
Fuel `cs.length` suffices since every step consumes at least one character. -/
def swsScan : Nat → List Char → List Char
  | 0, cs => cs
  | fuel + 1, cs =>
    match cs with
    | [] => []
    | c :: rest =>
      match tryMatch (c :: rest) with
      | some pr => pr.1 ++ swsScan fuel pr.2
      | none => c :: swsScan fuel rest

/-- `strip_worker_suffix(text)`: drop a leading literal `Benchmark`, then
globally replace `(\S+?)-\d+(\s|$)` by `\1\2`. -/
def strip_worker_suffix (text : List Char) : List Char :=
  let t := if "Benchmark".data.isPrefixOf text then text.drop 9 else text
  swsScan t.length t

/-- A fence-delimiter line: `line.strip().startswith("```")`. -/
def isFence (line : List Char) : Bool := "```".data.isPrefixOf (stripWs line)

/-- `re.match(r"^\s*[¹²³⁴⁵⁶⁷⁸⁹⁰]", line)`: optional leading whitespace
followed by a superscript numeral glyph. -/
def superStart (line : List Char) : Bool :=
  match line.dropWhile isSpace with
  | c :: _ => supers.contains c
  | [] => false

/-- `re.search(r"need\s*>?=\s*\d+\s+samples", line)` anchored at the head of
`cs`. -/
def matchNeedAt (cs : List Char) : Bool :=
  if "need".data.isPrefixOf cs then
    let r1 := (cs.drop 4).dropWhile isSpace
    let r2 := match r1 with
      | '>' :: t => t
      | _ => r1
    match r2 with
    | '=' :: r3 =>
      let r4 := r3.dropWhile isSpace
      let ds := r4.takeWhile Char.isDigit
      let r5 := r4.dropWhile Char.isDigit
      if ds = [] then false
      else
        (r5.takeWhile isSpace ≠ []) && "samples".data.isPrefixOf (r5.dropWhile isSpace)
    | _ => false
  else false

/-- `re.search` of the `need\s*>?=\s*\d+\s+samples` pattern at any position
in the line. -/
def needSearch (line : List Char) : Bool := line.tails.any matchNeedAt

/-- The footnote test used identically by both passes. -/
def isFootnote (line : List Char) : Bool := superStart line || needSearch line

/-- The blank/metadata test: `not line.strip() or
line.strip().startswith(("goos:", "goarch:", "pkg:", "cpu:"))`. -/
def isMeta (line : List Char) : Bool :=
  stripWs line = [] ||
    ("goos:".data.isPrefixOf (stripWs line) || "goarch:".data.isPrefixOf (stripWs line) ||
     "pkg:".data.isPrefixOf (stripWs line) || "cpu:".data.isPrefixOf (stripWs line))

/-- The column-header test: `"│" in line and ("vs base" in line or "old" in
line or "new" in line)`. -/
def isHeader (line : List Char) : Bool :=
  containsSub line "│".data &&
    (containsSub line "vs base".data || containsSub line "old".data ||
     containsSub line "new".data)

/-- Pass 0 of the script: fold over all lines computing the maximal width of
`strip_worker_suffix(line).rstrip()` over in-fence lines that are not
footnotes, blank/metadata lines or header lines.  Returns the final
`in_code` flag as well, because the script reuses the same mutable `in_code`
variable for the emission pass without resetting it. -/
def widthGo : Bool → List (List Char) → Nat → Nat × Bool
  | ic, [], acc => (acc, ic)
  | ic, l :: ls, acc =>
    if isFence l then widthGo (!ic) ls acc
    else if !ic then widthGo ic ls acc
    else if isFootnote l then widthGo ic ls acc
    else if isMeta l then widthGo ic ls acc
    else if isHeader l then widthGo ic ls acc
    else widthGo ic ls (max acc (rstrip (strip_worker_suffix l)).length)

/-- `max_content_width` over a whole document. -/
def max_content_width (lines : List (List Char)) : Nat := (widthGo false lines 0).1

/-- The fixed 8-space indent prepended to every in-fence output line. -/
def INDENT : List Char := spaces 8

/-- `line.rstrip().rstrip("│").rstrip()` of the header branch. -/
def headerCore (line : List Char) : List Char :=
  rstrip (((rstrip line).reverse.dropWhile (fun c => c = '│')).reverse)

/-- `re.sub(r"\s+Diff\s*$", "", s, flags=re.IGNORECASE)` applied to an
already right-stripped string: drop one trailing whitespace-then-`Diff`
group (case-insensitively), if present. -/
def stripTrailingDiff (s : List Char) : List Char :=
  match s.reverse with
  | f1 :: f2 :: i :: d :: w :: rest =>
    if ([f1, f2, i, d].map Char.toLower = ['f', 'f', 'i', 'd']) && isSpace w then
      rstrip ((w :: rest).reverse)
    else s
  | _ => s

/-- The header-line reconstruction of the emission pass. -/
def headerRebuild (line : List Char) (dcs : ℤ) : List Char :=
  let sh := stripTrailingDiff (headerCore line)
  let s4 := if (sh.length : ℤ) < dcs then sh ++ spaces (dcs - sh.length).toNat
            else sh ++ "  ".data
  let s5 := if containsSub line "vs base".data then s4 ++ "Diff".data else s4
  s5 ++ "│".data

/-- `append_aligned(left_part, content)`: pad `left_part` out to the diff
column start (or add two spaces when it is already at least that wide) and
prepend the fixed indent. -/
def appendAligned (dcs : ℤ) (leftPart content : List Char) : List Char :=
  if (leftPart.length : ℤ) < dcs then
    INDENT ++ leftPart ++ spaces (dcs - leftPart.length).toNat ++ content
  else INDENT ++ leftPart ++ "  ".data ++ content

/-- One step of the emission pass: given the `in_code` flag and the shared
`diff_col_start` offset, transform one line, returning the new flag and the
emitted line, or propagate the `ValueError` raised during numeric parsing.
(The script also computes an `is_geomean` flag from `tokens[0]` that no
branch ever reads; it has no observable effect and is omitted.) -/
def processLine (ic : Bool) (dcs : ℤ) (line : List Char) :
    Except (List Char) (Bool × List Char) :=
  if isFence line then Except.ok (!ic, line)
  else if !ic then Except.ok (ic, line)
  else if isFootnote line then Except.ok (ic, INDENT ++ line)
  else if isHeader line then Except.ok (ic, INDENT ++ headerRebuild line dcs)
  else if isMeta line then Except.ok (ic, INDENT ++ line)
  else
    let l2 := strip_worker_suffix line
    let tokens := splitWs l2
    if tokens = [] then Except.ok (ic, INDENT ++ l2)
    else
      match extract_two_numbers tokens with
      | Except.error e => Except.error e
      | Except.ok numbers =>
        match numbers with
        | [a, b] =>
          if a ≠ 0 then
            let d := (b - a) / a * 100
            Except.ok (ic, appendAligned dcs (rstrip l2) (fmtPlus2 d ++ "% ".data ++ get_icon d))
          else Except.ok (ic, INDENT ++ l2)
        | _ => Except.ok (ic, INDENT ++ l2)

/-- The emission pass over all lines, threading the `in_code` flag. -/
def processLines (dcs : ℤ) : Bool → List (List Char) → Except (List Char) (List (List Char))
  | _, [] => Except.ok []
  | ic, l :: ls =>
    match processLine ic dcs l with
    | Except.error e => Except.error e
    | Except.ok p => (processLines dcs p.1 ls).map (fun out => p.2 :: out)

/-- The whole TableReflow transformation on a document given as its list of
lines: pass 0 computes `max_content_width` (and the final, not reset,
`in_code` flag), then `diff_col_start = max_content_width - 13` is shared by
the emission pass. -/
def tableReflow (lines : List (List Char)) : Except (List Char) (List (List Char)) :=
  let w := widthGo false lines 0
  processLines ((w.1 : ℤ) - 13) w.2 lines

/-- The top level of the script: a missing `comparison.md` exits 0 with no
write; a raised error is caught, leaves the file unmodified and exits 1;
otherwise the processed lines are written back and the exit status is 0.
The file state is `none` when missing, otherwise `some` its lines. -/
def reflowMain (file : Option (List (List Char))) : Option (List (List Char)) × Nat :=
  match file with
  | none => (none, 0)
  | some lines =>
    match tableReflow lines with
    | Except.ok out => (some out, 0)
    | Except.error _ => (some lines, 1)

end Reflow

namespace Sim
/-!
Embedding of `.github/scripts/benchstat_simulator.py` (Comparator).  A
`benches` input document is embedded as its list of `(name, value)` pairs;
the Python dict comprehension `{b["name"]: b["value"] for b in ...}` keeps
the last binding of a duplicated name, which `dget` reproduces.  The
geometric mean, computed with `math.exp`/`math.log`, is embedded over `ℝ`.
-/

open Bench

/-- `format_val(val)`: 4-tier unit rendering of a nanosecond magnitude (the
`val is None` branch of the source is unreachable from `main`, whose call
sites guard with the `val == 0` test of `format_cell`). -/
def format_val (val : ℚ) : List Char :=
  if val < 1000 then fmt2 val ++ "n".data
  else if val < 1000000 then fmt2 (val / 1000) ++ "µ".data
  else if val < 1000000000 then fmt2 (val / 1000000) ++ "m".data
  else fmt2 (val / 1000000000) ++ "s".data

/-- `format_cell(val)` from `main`: zero renders `N/A`, otherwise the value
with the fixed placeholder confidence marker. -/
def format_cell (val : ℚ) : List Char :=
  if val = 0 then "N/A".data else format_val val ++ " ± ∞ ¹".data

/-- The `comp_str` computation of the per-name loop. -/
def compStr (base_val pr_val : ℚ) : List Char :=
  if 0 < base_val ∧ 0 < pr_val then "~ (p=1.000 n=1) ²".data else []

/-- `f"{name:<52}{base_str:<22}{pr_str:<22}{comp_str}"`. -/
def rowLine (name base_str pr_str comp_str : List Char) : List Char :=
  ljust name 52 ++ ljust base_str 22 ++ ljust pr_str 22 ++ comp_str

/-- Python string comparison (lexicographic by code point), the order used
by `sorted` on benchmark names. -/
def strLe : List Char → List Char → Bool
  | [], _ => true
  | _ :: _, [] => false
  | a :: as, b :: bs =>
    if a = b then strLe as bs else decide (a.toNat < b.toNat)

/-- `dict.get(name, 0)` over the association list (a Python dict keeps the
last binding of a key, hence the `reverse`). -/
def dget (bs : List (List Char × ℚ)) (k : List Char) : ℚ :=
  ((bs.reverse.find? (fun p => p.1 == k)).map Prod.snd).getD 0

/-- The keys of one side's map. -/
def keysOf (bs : List (List Char × ℚ)) : List (List Char) := bs.map Prod.fst

/-- `sorted(set(base_map.keys()) | set(pr_map.keys()))`. -/
def all_names (bm pm : List (List Char × ℚ)) : List (List Char) :=
  ((keysOf bm ++ keysOf pm).dedup).insertionSort (fun a b => strLe a b = true)

/-- The rendered data row for one name. -/
def rowFor (bm pm : List (List Char × ℚ)) (name : List Char) : List Char :=
  rowLine name (format_cell (dget bm name)) (format_cell (dget pm name))
    (compStr (dget bm name) (dget pm name))

/-- All per-name rows, in sorted name order. -/
def comparatorRows (bm pm : List (List Char × ℚ)) : List (List Char) :=
  (all_names bm pm).map (rowFor bm pm)

/-- The `base_values`/`pr_values` accumulation of the loop: the side's value
of each name, kept only when strictly positive, in name order. -/
def collectVals (m : List (List Char × ℚ)) (names : List (List Char)) : List ℚ :=
  names.filterMap (fun n => if 0 < dget m n then some (dget m n) else none)

/-- `base_values` at the end of the loop. -/
def baseValues (bm pm : List (List Char × ℚ)) : List ℚ := collectVals bm (all_names bm pm)

/-- `pr_values` at the end of the loop. -/
def prValues (bm pm : List (List Char × ℚ)) : List ℚ := collectVals pm (all_names bm pm)

/-- `calc_geo(vals) = math.exp(sum(math.log(x) for x in vals) / len(vals))`. -/
noncomputable def calc_geo (vals : List ℚ) : ℝ :=
  Real.exp ((vals.map (fun x => Real.log (x : ℝ))).sum / vals.length)

/-- The geomean row's pair of values: emitted only under
`if base_values and pr_values` (both lists nonempty). -/
noncomputable def geomeanPair (bm pm : List (List Char × ℚ)) : Option (ℝ × ℝ) :=
  if baseValues bm pm ≠ [] ∧ prValues bm pm ≠ [] then
    some (calc_geo (baseValues bm pm), calc_geo (prValues bm pm))
  else none

/-- Round-half-to-even over `ℝ`, the `ℝ`-side mirror of `Bench.rhe` used to
embed the `.2f` rendering of the geomean floats. -/
noncomputable def rheR (x : ℝ) : ℤ :=
  let f : ℤ := ⌊x⌋
  if x - f < 1/2 then f
  else if 1/2 < x - f then f + 1
  else if f % 2 = 0 then f else f + 1

/-- `f"{v:.2f}"` over `ℝ`. -/
noncomputable def fmt2R (v : ℝ) : List Char :=
  let n : Nat := (rheR (v * 100)).natAbs
  (if v < 0 then ['-'] else []) ++ natStr (n / 100) ++ '.' :: pad2 (n % 100)

/-- `format_val` over `ℝ`, for the geomean row's cells. -/
noncomputable def format_valR (val : ℝ) : List Char :=
  if val < 1000 then fmt2R val ++ "n".data
  else if val < 1000000 then fmt2R (val / 1000) ++ "µ".data
  else if val < 1000000000 then fmt2R (val / 1000000) ++ "m".data
  else fmt2R (val / 1000000000) ++ "s".data

/-- `f"{'geomean':<52}{format_val(g_base):<22}{format_val(g_pr):<22}"`: the
geomean row is printed from exactly three cells, with no comparison
annotation field. -/
noncomputable def geomeanLine (g_base g_pr : ℝ) : List Char :=
  ljust "geomean".data 52 ++ ljust (format_valR g_base) 22 ++ ljust (format_valR g_pr) 22

end Sim

namespace Fmt
/-!
Embedding of `.github/scripts/format_benchmark_data.py` (Normalizer).  Only
the `benches` computation is claim-relevant; the commit-metadata block,
read from environment variables, and the output serialisation are I/O glue.
-/

/-- One raw input record: `{"benchmark": ..., "primaryMetric":
{"score": ..., "scoreUnit": ...}}`. -/
structure RawResult where
  benchmark : List Char
  score : ℚ
  scoreUnit : String
deriving DecidableEq

/-- One canonical output record of the `benches` array. -/
structure CanonicalBench where
  name : List Char
  value : ℚ
  unit : String
  extra : String
deriving DecidableEq

/-- `normalize_name(name)`: `re.sub(r"^Benchmark", "", name)`. -/
def normalize_name (name : List Char) : List Char :=
  if "Benchmark".data.isPrefixOf name then name.drop 9 else name

/-- One iteration of the `for bench in data` loop: the record is kept iff
`score > 0 and unit == "ops/s"`, with `value = round((1.0/score)*1e9, 2)`. -/
def processRecord (r : RawResult) : Option CanonicalBench :=
  if 0 < r.score ∧ r.scoreUnit = "ops/s" then
    some { name := normalize_name r.benchmark,
           value := Bench.round2 ((1 / r.score) * 1000000000),
           unit := "ns/op", extra := "" }
  else none

/-- The full `benches` array produced from the input list. -/
def benchesOf (data : List RawResult) : List CanonicalBench :=
  data.filterMap processRecord

end Fmt

namespace FP
/-!
IEEE binary64 ("double") rounding.  Python floats are doubles, and at the
`diff = 10` glyph boundary the double rounding of the parsed magnitudes and
of each arithmetic step decides the observable output, so the
boundary-sensitive instances are settled under this double semantics rather
than under the exact-rational idealisation used elsewhere.  Magnitudes here
are far from the subnormal and overflow ranges, so rounding is: scale by
powers of two into the 53-bit mantissa window, round to an integer
half-to-even, scale back.
-/

/-- Double the value until it reaches the mantissa window `[2^52, 2^53)`
(fuel-bounded; fuel 200 covers every magnitude arising here). -/
def scaleUp : Nat → ℚ → ℤ → ℚ × ℤ
  | 0, x, e => (x, e)
  | fuel + 1, x, e => if x < 2 ^ 52 then scaleUp fuel (x * 2) (e + 1) else (x, e)

/-- Halve the value while it is at or above `2^53`. -/
def scaleDown : Nat → ℚ → ℤ → ℚ × ℤ
  | 0, x, e => (x, e)
  | fuel + 1, x, e => if 2 ^ 53 ≤ x then scaleDown fuel (x / 2) (e - 1) else (x, e)

/-- Round a rational to the nearest IEEE binary64 value (round-to-nearest,
ties-to-even), for magnitudes far from the subnormal and overflow ranges. -/
def fl (q : ℚ) : ℚ :=
  if q = 0 then 0
  else
    let u := scaleUp 200 |q| 0
    let p := scaleDown 200 u.1 u.2
    (if q < 0 then (-1 : ℚ) else 1) * ((Bench.rhe p.1 : ℚ) / (2 : ℚ) ^ p.2)

/-- The double `parse_val` computes for a token with decimal magnitude `v`
and unit suffix `m`/`ms`: `float(...)` gives the double nearest `v`, and
`val * 1e-3` multiplies by the double nearest `1/1000` and rounds again. -/
def parseMilli (v : ℚ) : ℚ := fl (fl v * fl (1/1000))

/-- The data-line diff `(numbers[1] - numbers[0]) / numbers[0] * 100`
evaluated in IEEE doubles (each intermediate result rounded). -/
def diffF (a b : ℚ) : ℚ := fl (fl (fl (b - a) / a) * 100)

end FP

/-! ## Theorems -/

open Bench

/-- C3: TableReflow's numeric-token parser maps an optional-sign decimal
magnitude with unit suffix to seconds via the scale n/ns→1e-9, u/us→1e-6
(µ is replaced by u before dispatch), m/ms→1e-3, s→1, empty→1; the token
`123.45ms` parses to 0.12345 s, `5µ` to 5e-6 s, `5n` to 5e-9 s, and any
token containing `%` or `=` (such as `50%` or `p=0.05`) is never numeric. -/
theorem C3_parse_val_scale :
    (∀ t : List Char, (t.contains '%' || t.contains '=') = true →
        Reflow.parse_val t = Except.ok none)
    ∧ (∀ v : ℚ,
        Reflow.unitValue v "n".data = Except.ok (v * (1/1000000000))
        ∧ Reflow.unitValue v "ns".data = Except.ok (v * (1/1000000000))
        ∧ Reflow.unitValue v "u".data = Except.ok (v * (1/1000000))
        ∧ Reflow.unitValue v "us".data = Except.ok (v * (1/1000000))
        ∧ Reflow.unitValue v "m".data = Except.ok (v * (1/1000))
        ∧ Reflow.unitValue v "ms".data = Except.ok (v * (1/1000))
        ∧ Reflow.unitValue v "s".data = Except.ok v
        ∧ Reflow.unitValue v [] = Except.ok v)
    ∧ Reflow.parse_val "123.45ms".data = Except.ok (some (12345/100000))
    ∧ Reflow.parse_val "5µ".data = Except.ok (some (5/1000000))
    ∧ Reflow.parse_val "5n".data = Except.ok (some (1/200000000))
    ∧ Reflow.parse_val "50%".data = Except.ok none
    ∧ Reflow.parse_val "p=0.05".data = Except.ok none := by
  refine ⟨fun t h => by simp only [Reflow.parse_val, h, if_true], fun v => ?_, ?_, ?_, ?_, ?_, ?_⟩
  · refine ⟨?_, ?_, ?_, ?_, ?_, ?_, ?_, ?_⟩ <;> simp +decide [Reflow.unitValue]
  all_goals
    simp [Reflow.parse_val, Reflow.clean_superscripts, Bench.stripWs, Bench.beforeFirst,
      Bench.lstrip, Bench.rstrip, Reflow.numMatch, Reflow.unitValue, Reflow.ratOfDigits,
      Reflow.digitsToNat, Reflow.supers, Reflow.isAlphaMu, Bench.isSpace]
  all_goals norm_num

/-- Witness for the universally quantified parts of `C3_parse_val_scale`. -/
theorem C3_parse_val_scale_witness :
    Reflow.parse_val "7%".data = Except.ok none ∧
      Reflow.unitValue 3 "ms".data = Except.ok (3 * (1/1000)) :=
  ⟨C3_parse_val_scale.1 "7%".data (by decide), (C3_parse_val_scale.2.1 3).2.2.2.2.2.1⟩

/-- Helper shared by C4 and C8: a raised error during the pass leaves the
file unmodified and exits with status 1. -/
theorem reflowMain_error (lines : List (List Char)) (e : List Char)
    (h : Reflow.tableReflow lines = Except.error e) :
    Reflow.reflowMain (some lines) = (some lines, 1) := by
  simp only [Reflow.reflowMain, h]

/-- C4: an unrecognised non-empty unit suffix raises a hard parsing error
(`Unexpected unit`), which is not swallowed locally: it propagates to the
top level, the process exits with non-zero status, and the input file is
left unmodified.  Shown in general for the suffix dispatch and the top
level, and end-to-end on a concrete table containing the token `5q`. -/
theorem C4_unexpected_unit_fatal :
    (∀ (v : ℚ) (s : List Char), s ≠ [] →
      s ≠ "n".data → s ≠ "ns".data → s ≠ "u".data → s ≠ "us".data →
      s ≠ "m".data → s ≠ "ms".data → s ≠ "s".data →
      Reflow.unitValue v s = Except.error ("Unexpected unit: ".data ++ s))
    ∧ (∀ (lines : List (List Char)) (e : List Char),
        Reflow.tableReflow lines = Except.error e →
        Reflow.reflowMain (some lines) = (some lines, 1))
    ∧ Reflow.reflowMain (some ["```".data, "X 5q 6q".data, "```".data]) =
        (some ["```".data, "X 5q 6q".data, "```".data], 1) := by
  refine ⟨?_, fun lines e h => reflowMain_error lines e h, ?_⟩
  · intro v s hne h1 h2 h3 h4 h5 h6 h7
    simp [Reflow.unitValue, h1, h2, h3, h4, h5, h6, h7, hne]
  · refine reflowMain_error _ ("Unexpected unit: q".data) ?_
    simp [Reflow.tableReflow, Reflow.widthGo, Reflow.processLines, Reflow.processLine,
      Reflow.isFence, Reflow.isFootnote, Reflow.superStart, Reflow.needSearch,
      Reflow.matchNeedAt, Reflow.isMeta, Reflow.isHeader, Bench.containsSub,
      Reflow.extract_two_numbers, Reflow.etnGo, Reflow.parse_val,
      Reflow.clean_superscripts, Bench.stripWs, Bench.beforeFirst, Bench.lstrip,
      Bench.rstrip, Reflow.numMatch, Reflow.unitValue, Reflow.supers, Reflow.isAlphaMu,
      Bench.isSpace, Reflow.strip_worker_suffix, Reflow.swsScan, Reflow.tryMatch,
      Reflow.tryFrom, Bench.splitWs, Bench.splitWsAux, Except.map]

/-- Witness for `C4_unexpected_unit_fatal` at concrete inputs. -/
theorem C4_unexpected_unit_fatal_witness :
    Reflow.unitValue 3 "q".data = Except.error ("Unexpected unit: ".data ++ "q".data)
    ∧ Reflow.reflowMain (some ["```".data, "Z 7k 8k".data, "```".data]) =
        (some ["```".data, "Z 7k 8k".data, "```".data], 1) :=
  ⟨C4_unexpected_unit_fatal.1 3 "q".data (by decide) (by decide) (by decide) (by decide)
      (by decide) (by decide) (by decide) (by decide),
    C4_unexpected_unit_fatal.2.1 _ ("Unexpected unit: k".data) (by
      simp [Reflow.tableReflow, Reflow.widthGo, Reflow.processLines, Reflow.processLine,
        Reflow.isFence, Reflow.isFootnote, Reflow.superStart, Reflow.needSearch,
        Reflow.matchNeedAt, Reflow.isMeta, Reflow.isHeader, Bench.containsSub,
        Reflow.extract_two_numbers, Reflow.etnGo, Reflow.parse_val,
        Reflow.clean_superscripts, Bench.stripWs, Bench.beforeFirst, Bench.lstrip,
        Bench.rstrip, Reflow.numMatch, Reflow.unitValue, Reflow.supers, Reflow.isAlphaMu,
        Bench.isSpace, Reflow.strip_worker_suffix, Reflow.swsScan, Reflow.tryMatch,
        Reflow.tryFrom, Bench.splitWs, Bench.splitWsAux, Except.map])⟩

/-- C8: a missing input file is a clean no-op exit (status 0, no write); any
error raised during the pass exits non-zero with the file unmodified; and
every line encountered while outside the fenced region — including the
fence delimiter itself — passes through unchanged. -/
theorem C8_missing_file_errors_passthrough :
    Reflow.reflowMain none = (none, 0)
    ∧ (∀ (lines : List (List Char)) (e : List Char),
        Reflow.tableReflow lines = Except.error e →
        Reflow.reflowMain (some lines) = (some lines, 1))
    ∧ (∀ (dcs : ℤ) (line : List Char),
        Reflow.processLine false dcs line = Except.ok (Reflow.isFence line, line)) := by
  refine ⟨rfl, fun lines e h => reflowMain_error lines e h, ?_⟩
  intro dcs line
  by_cases h : Reflow.isFence line
  · simp [Reflow.processLine, h]
  · simp [Reflow.processLine, h]

/-- Witness for `C8_missing_file_errors_passthrough`: the malformed-file
conjunct applied to a concrete table carrying a bad unit token. -/
theorem C8_missing_file_errors_passthrough_witness :
    Reflow.reflowMain (some ["```".data, "W 9v 9v".data, "```".data]) =
      (some ["```".data, "W 9v 9v".data, "```".data], 1) :=
  C8_missing_file_errors_passthrough.2.1 _ ("Unexpected unit: v".data) (by
    simp [Reflow.tableReflow, Reflow.widthGo, Reflow.processLines, Reflow.processLine,
      Reflow.isFence, Reflow.isFootnote, Reflow.superStart, Reflow.needSearch,
      Reflow.matchNeedAt, Reflow.isMeta, Reflow.isHeader, Bench.containsSub,
      Reflow.extract_two_numbers, Reflow.etnGo, Reflow.parse_val,
      Reflow.clean_superscripts, Bench.stripWs, Bench.beforeFirst, Bench.lstrip,
      Bench.rstrip, Reflow.numMatch, Reflow.unitValue, Reflow.supers, Reflow.isAlphaMu,
      Bench.isSpace, Reflow.strip_worker_suffix, Reflow.swsScan, Reflow.tryMatch,
      Reflow.tryFrom, Bench.splitWs, Bench.splitWsAux, Except.map])

/-- C9: any in-fence line in which the `need\s*>?=\s*\d+\s+samples` pattern
matches at any position is classified as a footnote: the emission pass
outputs it with only the fixed indent added (never parsing it for numbers),
and the width pre-pass skips it entirely. -/
theorem C9_need_samples_matches_anywhere :
    ∀ (dcs : ℤ) (line : List Char), Reflow.isFence line = false →
      Reflow.needSearch line = true →
      Reflow.processLine true dcs line = Except.ok (true, Reflow.INDENT ++ line)
      ∧ (∀ (ls : List (List Char)) (acc : Nat),
          Reflow.widthGo true (line :: ls) acc = Reflow.widthGo true ls acc) := by
  intro dcs line hf hn
  have hfoot : Reflow.isFootnote line = true := by simp [Reflow.isFootnote, hn]
  refine ⟨?_, fun ls acc => ?_⟩
  · simp [Reflow.processLine, hf, hfoot]
  · simp [Reflow.widthGo, hf, hfoot]

/-- Witness for `C9_need_samples_matches_anywhere`: a line that is otherwise
a perfectly well-formed data row is still treated as a footnote because the
pattern occurs mid-line. -/
theorem C9_need_samples_matches_anywhere_witness :
    Reflow.processLine true 47 "Alpha 1.00m need >= 6 samples 2.00m".data =
      Except.ok (true, Reflow.INDENT ++ "Alpha 1.00m need >= 6 samples 2.00m".data)
    ∧ Reflow.widthGo true ["Alpha 1.00m need >= 6 samples 2.00m".data] 0 =
        Reflow.widthGo true [] 0 :=
  ⟨(C9_need_samples_matches_anywhere 47 _ (by decide) (by decide)).1,
    (C9_need_samples_matches_anywhere 47 _ (by decide) (by decide)).2 [] 0⟩

/-- Helper: the data-line branch of the emission pass, when extraction finds
exactly two magnitudes with a nonzero first one. -/
theorem processLine_data (dcs : ℤ) (line : List Char) (a b : ℚ)
    (hf : Reflow.isFence line = false)
    (hfo : Reflow.isFootnote line = false)
    (hh : Reflow.isHeader line = false)
    (hm : Reflow.isMeta line = false)
    (hex : Reflow.extract_two_numbers (Bench.splitWs (Reflow.strip_worker_suffix line)) =
      Except.ok [a, b])
    (ha : a ≠ 0) :
    Reflow.processLine true dcs line = Except.ok (true,
      Reflow.appendAligned dcs (Bench.rstrip (Reflow.strip_worker_suffix line))
        (Bench.fmtPlus2 ((b - a) / a * 100) ++ "% ".data ++
          Reflow.get_icon ((b - a) / a * 100))) := by
  have htok : ¬ Bench.splitWs (Reflow.strip_worker_suffix line) = [] := by
    intro h0
    rw [h0] at hex
    simp [Reflow.extract_two_numbers, Reflow.etnGo] at hex
  simp [Reflow.processLine, hf, hfo, hh, hm, htok, hex, ha]

/-- Helper: round-half-even at an integer point is that integer. -/
theorem rhe_intCast (n : ℤ) : Bench.rhe (n : ℚ) = n := by
  simp [Bench.rhe, Int.floor_intCast]

/-- Helper: `f"{10:+.2f}"` renders `+10.00`. -/
theorem fmtPlus2_ten : Bench.fmtPlus2 10 = "+10.00".data := by
  have h : Bench.rhe ((10 : ℚ) * 100) = (1000 : ℤ) := by
    have e : ((10 : ℚ) * 100) = ((1000 : ℤ) : ℚ) := by norm_num
    rw [e, rhe_intCast]
  simp only [Bench.fmtPlus2, h]
  norm_num
  decide

/-- Helper: a percentage difference of exactly 10 gets the neutral glyph. -/
theorem get_icon_ten : Reflow.get_icon 10 = "➡️".data := by
  simp [Reflow.get_icon]

/-- Helper: `f"{5:+.2f}"` renders `+5.00`. -/
theorem fmtPlus2_five : Bench.fmtPlus2 5 = "+5.00".data := by
  have h : Bench.rhe ((5 : ℚ) * 100) = (500 : ℤ) := by
    have e : ((5 : ℚ) * 100) = ((500 : ℤ) : ℚ) := by norm_num
    rw [e, rhe_intCast]
  simp only [Bench.fmtPlus2, h]
  norm_num
  decide

/-- Helper: a percentage difference of 5 gets the neutral glyph. -/
theorem get_icon_five : Reflow.get_icon 5 = "➡️".data := by
  unfold Reflow.get_icon
  rw [if_neg (by norm_num), if_neg (by norm_num)]

/-- C1 counterexample: in the concrete two-row table below, the longest
worker-suffix-stripped line is 60 characters wide, so `diff_col_start` is
47; yet the emitted rows do not share one diff offset: the second row's
diff begins at content offset 47 (absolute offset 55 after the 8-space
indent), while the first row — the one of width 60 ≥ 47 — has its diff at
absolute offset 70, and nothing resembling a diff at offset 47 or 55.
(The rows are 5% apart, far from every rounding and glyph boundary, so the
exact-rational model and the program's double arithmetic emit the same
`+5.00% ➡️` text.) -/
theorem C1_counterexample :
    Reflow.tableReflow
        ["```".data,
         "Alpha                                            1.00m 1.05m".data,
         "Beta 2.00m 2.10m".data,
         "```".data] =
      Except.ok
        ["```".data,
         "        Alpha                                            1.00m 1.05m  +5.00% ➡️".data,
         "        Beta 2.00m 2.10m                               +5.00% ➡️".data,
         "```".data]
    ∧ (("        Alpha                                            1.00m 1.05m  +5.00% ➡️".data.drop 47).take 6 ≠
        "+5.00%".data)
    ∧ (("        Alpha                                            1.00m 1.05m  +5.00% ➡️".data.drop 55).take 6 ≠
        "+5.00%".data)
    ∧ (("        Alpha                                            1.00m 1.05m  +5.00% ➡️".data.drop 70).take 6 =
        "+5.00%".data)
    ∧ (("        Beta 2.00m 2.10m                               +5.00% ➡️".data.drop 55).take 6 =
        "+5.00%".data) := by
  refine ⟨?_, by decide, by decide, by decide, by decide⟩
  have hw : Reflow.widthGo false
      ["```".data,
       "Alpha                                            1.00m 1.05m".data,
       "Beta 2.00m 2.10m".data,
       "```".data] 0 = (60, false) := by decide
  have hdcs : Reflow.tableReflow
      ["```".data,
       "Alpha                                            1.00m 1.05m".data,
       "Beta 2.00m 2.10m".data,
       "```".data] = Reflow.processLines 47 false
      ["```".data,
       "Alpha                                            1.00m 1.05m".data,
       "Beta 2.00m 2.10m".data,
       "```".data] := by
    simp only [Reflow.tableReflow, hw]
    norm_num
  have ht1 : Bench.splitWs (Reflow.strip_worker_suffix
      "Alpha                                            1.00m 1.05m".data) =
      ["Alpha".data, "1.00m".data, "1.05m".data] := by decide
  have ht2 : Bench.splitWs (Reflow.strip_worker_suffix "Beta 2.00m 2.10m".data) =
      ["Beta".data, "2.00m".data, "2.10m".data] := by decide
  have d1 : Reflow.extract_two_numbers (Bench.splitWs (Reflow.strip_worker_suffix
      "Alpha                                            1.00m 1.05m".data)) =
      Except.ok [1/1000, 21/20000] := by
    rw [ht1]
    simp [Reflow.extract_two_numbers, Reflow.etnGo, Reflow.parse_val,
      Reflow.clean_superscripts, Bench.stripWs, Bench.beforeFirst, Bench.lstrip,
      Bench.rstrip, Reflow.numMatch, Reflow.unitValue, Reflow.ratOfDigits,
      Reflow.digitsToNat, Reflow.supers, Reflow.isAlphaMu, Bench.isSpace]
    norm_num
  have d2 : Reflow.extract_two_numbers (Bench.splitWs (Reflow.strip_worker_suffix
      "Beta 2.00m 2.10m".data)) = Except.ok [1/500, 21/10000] := by
    rw [ht2]
    simp [Reflow.extract_two_numbers, Reflow.etnGo, Reflow.parse_val,
      Reflow.clean_superscripts, Bench.stripWs, Bench.beforeFirst, Bench.lstrip,
      Bench.rstrip, Reflow.numMatch, Reflow.unitValue, Reflow.ratOfDigits,
      Reflow.digitsToNat, Reflow.supers, Reflow.isAlphaMu, Bench.isSpace]
    norm_num
  have p0 : Reflow.processLine false 47 "```".data = Except.ok (true, "```".data) := by decide
  have p3 : Reflow.processLine true 47 "```".data = Except.ok (false, "```".data) := by decide
  have p1 : Reflow.processLine true 47
      "Alpha                                            1.00m 1.05m".data = Except.ok (true,
      "        Alpha                                            1.00m 1.05m  +5.00% ➡️".data) := by
    have e := processLine_data 47
      "Alpha                                            1.00m 1.05m".data (1/1000) (21/20000)
      (by decide) (by decide) (by decide) (by decide) d1 (by norm_num)
    rw [e, show ((21/20000 - 1/1000 : ℚ) / (1/1000) * 100) = 5 from by norm_num,
      fmtPlus2_five, get_icon_five]
    decide
  have p2 : Reflow.processLine true 47 "Beta 2.00m 2.10m".data = Except.ok (true,
      "        Beta 2.00m 2.10m                               +5.00% ➡️".data) := by
    have e := processLine_data 47 "Beta 2.00m 2.10m".data (1/500) (21/10000)
      (by decide) (by decide) (by decide) (by decide) d2 (by norm_num)
    rw [e, show ((21/10000 - 1/500 : ℚ) / (1/500) * 100) = 5 from by norm_num,
      fmtPlus2_five, get_icon_five]
    decide
  rw [hdcs]
  simp only [Reflow.processLines, p0, p1, p2, p3, Except.map]

/-- C1 (amended): `diff_col_start` is the maximal stripped width minus 13
and is shared by the data-line and header reconstructions; every data row
whose stripped, right-stripped width is strictly below `diff_col_start` has
its diff value begin at that offset within the content following the fixed
8-space indent (absolute offset `8 + diff_col_start`), and the rebuilt
header places its `Diff` label at the same offset; rows at least
`diff_col_start` wide (such as the row realising the maximum) instead get
the diff two spaces after their content. -/
theorem C1_diff_column_offset :
    (∀ lines : List (List Char),
      Reflow.tableReflow lines =
        Reflow.processLines ((Reflow.max_content_width lines : ℤ) - 13)
          (Reflow.widthGo false lines 0).2 lines)
    ∧ (∀ (dcs : ℤ) (line : List Char) (a b : ℚ),
        Reflow.isFence line = false → Reflow.isFootnote line = false →
        Reflow.isHeader line = false → Reflow.isMeta line = false →
        Reflow.extract_two_numbers (Bench.splitWs (Reflow.strip_worker_suffix line)) =
          Except.ok [a, b] →
        a ≠ 0 →
        ((Bench.rstrip (Reflow.strip_worker_suffix line)).length : ℤ) < dcs →
        Reflow.processLine true dcs line = Except.ok (true,
          Reflow.INDENT ++ Bench.rstrip (Reflow.strip_worker_suffix line) ++
            Bench.spaces (dcs - (Bench.rstrip (Reflow.strip_worker_suffix line)).length).toNat ++
            (Bench.fmtPlus2 ((b - a) / a * 100) ++ "% ".data ++
              Reflow.get_icon ((b - a) / a * 100)))
        ∧ (Reflow.INDENT ++ Bench.rstrip (Reflow.strip_worker_suffix line) ++
            Bench.spaces (dcs - (Bench.rstrip (Reflow.strip_worker_suffix line)).length).toNat ++
            (Bench.fmtPlus2 ((b - a) / a * 100) ++ "% ".data ++
              Reflow.get_icon ((b - a) / a * 100))).drop (8 + dcs.toNat) =
            Bench.fmtPlus2 ((b - a) / a * 100) ++ "% ".data ++
              Reflow.get_icon ((b - a) / a * 100))
    ∧ (∀ (dcs : ℤ) (line : List Char),
        Reflow.isFence line = false → Reflow.isFootnote line = false →
        Reflow.isHeader line = true →
        Bench.containsSub line "vs base".data = true →
        ((Reflow.stripTrailingDiff (Reflow.headerCore line)).length : ℤ) < dcs →
        Reflow.processLine true dcs line = Except.ok (true,
          Reflow.INDENT ++ Reflow.stripTrailingDiff (Reflow.headerCore line) ++
            Bench.spaces (dcs - (Reflow.stripTrailingDiff (Reflow.headerCore line)).length).toNat ++
            ("Diff".data ++ "│".data))
        ∧ (Reflow.INDENT ++ Reflow.stripTrailingDiff (Reflow.headerCore line) ++
            Bench.spaces (dcs - (Reflow.stripTrailingDiff (Reflow.headerCore line)).length).toNat ++
            ("Diff".data ++ "│".data)).drop (8 + dcs.toNat) =
            "Diff".data ++ "│".data) := by
  refine ⟨fun lines => rfl, ?_, ?_⟩
  · intro dcs line a b hf hfo hh hm hex ha hlen
    have e := processLine_data dcs line a b hf hfo hh hm hex ha
    have hap : Reflow.appendAligned dcs (Bench.rstrip (Reflow.strip_worker_suffix line))
        (Bench.fmtPlus2 ((b - a) / a * 100) ++ "% ".data ++
          Reflow.get_icon ((b - a) / a * 100)) =
        Reflow.INDENT ++ Bench.rstrip (Reflow.strip_worker_suffix line) ++
          Bench.spaces (dcs - (Bench.rstrip (Reflow.strip_worker_suffix line)).length).toNat ++
          (Bench.fmtPlus2 ((b - a) / a * 100) ++ "% ".data ++
            Reflow.get_icon ((b - a) / a * 100)) := by
      unfold Reflow.appendAligned
      rw [if_pos hlen]
    refine ⟨by rw [e, hap], ?_⟩
    have hlen2 : (Reflow.INDENT ++ (Bench.rstrip (Reflow.strip_worker_suffix line) ++
        Bench.spaces (dcs - (Bench.rstrip (Reflow.strip_worker_suffix line)).length).toNat)).length =
        8 + dcs.toNat := by
      simp only [List.length_append, Reflow.INDENT, Bench.spaces, List.length_replicate]
      omega
    rw [show Reflow.INDENT ++ Bench.rstrip (Reflow.strip_worker_suffix line) ++
        Bench.spaces (dcs - (Bench.rstrip (Reflow.strip_worker_suffix line)).length).toNat ++
        (Bench.fmtPlus2 ((b - a) / a * 100) ++ "% ".data ++
          Reflow.get_icon ((b - a) / a * 100)) =
        (Reflow.INDENT ++ (Bench.rstrip (Reflow.strip_worker_suffix line) ++
          Bench.spaces (dcs - (Bench.rstrip (Reflow.strip_worker_suffix line)).length).toNat)) ++
        (Bench.fmtPlus2 ((b - a) / a * 100) ++ "% ".data ++
          Reflow.get_icon ((b - a) / a * 100)) from by simp [List.append_assoc]]
    exact List.drop_left' hlen2
  · intro dcs line hf hfo hh hvs hlen
    have hhr : Reflow.headerRebuild line dcs =
        Reflow.stripTrailingDiff (Reflow.headerCore line) ++
          Bench.spaces (dcs - (Reflow.stripTrailingDiff (Reflow.headerCore line)).length).toNat ++
          ("Diff".data ++ "│".data) := by
      simp only [Reflow.headerRebuild, hvs, if_true]
      rw [if_pos hlen]
      simp [List.append_assoc]
    refine ⟨by simp [Reflow.processLine, hf, hfo, hh, hhr, List.append_assoc], ?_⟩
    have hlen2 : (Reflow.INDENT ++ (Reflow.stripTrailingDiff (Reflow.headerCore line) ++
        Bench.spaces (dcs - (Reflow.stripTrailingDiff (Reflow.headerCore line)).length).toNat)).length =
        8 + dcs.toNat := by
      simp only [List.length_append, Reflow.INDENT, Bench.spaces, List.length_replicate]
      omega
    rw [show Reflow.INDENT ++ Reflow.stripTrailingDiff (Reflow.headerCore line) ++
        Bench.spaces (dcs - (Reflow.stripTrailingDiff (Reflow.headerCore line)).length).toNat ++
        ("Diff".data ++ "│".data) =
        (Reflow.INDENT ++ (Reflow.stripTrailingDiff (Reflow.headerCore line) ++
          Bench.spaces (dcs - (Reflow.stripTrailingDiff (Reflow.headerCore line)).length).toNat)) ++
        ("Diff".data ++ "│".data) from by simp [List.append_assoc]]
    exact List.drop_left' hlen2

/-- Witness for `C1_diff_column_offset`: a data row narrower than the diff
column start lands its diff at the shared offset, and a header line lands
its `Diff` label at the same offset. -/
theorem C1_diff_column_offset_witness :
    Reflow.processLine true 47 "Beta 2.00m 2.10m".data = Except.ok (true,
      "        Beta 2.00m 2.10m                               +5.00% ➡️".data)
    ∧ Reflow.processLine true 20 "x │ vs base   Diff".data = Except.ok (true,
      "        x │ vs base         Diff│".data) := by
  constructor
  · have h := (C1_diff_column_offset.2.1 47 "Beta 2.00m 2.10m".data (1/500) (21/10000)
      (by decide) (by decide) (by decide) (by decide)
      (by
        rw [show Bench.splitWs (Reflow.strip_worker_suffix "Beta 2.00m 2.10m".data) =
          ["Beta".data, "2.00m".data, "2.10m".data] from by decide]
        simp [Reflow.extract_two_numbers, Reflow.etnGo, Reflow.parse_val,
          Reflow.clean_superscripts, Bench.stripWs, Bench.beforeFirst, Bench.lstrip,
          Bench.rstrip, Reflow.numMatch, Reflow.unitValue, Reflow.ratOfDigits,
          Reflow.digitsToNat, Reflow.supers, Reflow.isAlphaMu, Bench.isSpace]
        norm_num)
      (by norm_num) (by decide)).1
    rw [h, show ((21/10000 - 1/500 : ℚ) / (1/500) * 100) = 5 from by norm_num,
      fmtPlus2_five, get_icon_five]
    decide
  · have h := (C1_diff_column_offset.2.2 20 "x │ vs base   Diff".data
      (by decide) (by decide) (by decide) (by decide) (by decide)).1
    rw [h]
    decide

/-- C6: the Normalizer includes a raw record iff its score is strictly
positive and its unit is exactly `ops/s`, in which case the emitted value is
`(1.0/score) * 1e9` rounded to two decimals; all other records are dropped
by yielding `none` (no error path exists). -/
theorem C6_normalizer_filter_and_value :
    (∀ (r : Fmt.RawResult) (c : Fmt.CanonicalBench),
      Fmt.processRecord r = some c ↔
        (0 < r.score ∧ r.scoreUnit = "ops/s" ∧
          c = { name := Fmt.normalize_name r.benchmark,
                value := Bench.round2 ((1 / r.score) * 1000000000),
                unit := "ns/op", extra := "" }))
    ∧ (∀ r : Fmt.RawResult, Fmt.processRecord r = none ↔
        ¬ (0 < r.score ∧ r.scoreUnit = "ops/s"))
    ∧ (∀ data : List Fmt.RawResult,
        Fmt.benchesOf data = data.filterMap Fmt.processRecord) := by
  refine ⟨?_, ?_, fun data => rfl⟩
  · intro r c
    unfold Fmt.processRecord
    split_ifs with h
    · exact ⟨fun hc => ⟨h.1, h.2, (Option.some.inj hc).symm⟩, fun hc => by rw [hc.2.2]⟩
    · exact ⟨fun hc => absurd hc (by simp), fun hc => absurd ⟨hc.1, hc.2.1⟩ h⟩
  · intro r
    unfold Fmt.processRecord
    split_ifs with h
    · simp [h]
    · simp [h]

/-- Helper: the Normalizer's output on the sample record
`{"benchmark": "BenchmarkX", score 1e6 ops/s}`. -/
theorem processRecord_sample :
    Fmt.processRecord ⟨"BenchmarkX".data, 1000000, "ops/s"⟩ =
      some ⟨"X".data, 1000, "ns/op", ""⟩ := by
  have hv : Bench.round2 ((1 / (1000000 : ℚ)) * 1000000000) = 1000 := by
    have e : ((1 / (1000000 : ℚ)) * 1000000000) * 100 = ((100000 : ℤ) : ℚ) := by norm_num
    unfold Bench.round2
    rw [e, rhe_intCast]
    norm_num
  unfold Fmt.processRecord
  rw [if_pos ⟨by norm_num, rfl⟩]
  rw [show Fmt.normalize_name "BenchmarkX".data = "X".data from by decide, hv]

/-- Witness for `C6_normalizer_filter_and_value`: the iff applied to the
sample record, both directions exercised through the mpr side. -/
theorem C6_normalizer_filter_and_value_witness :
    Fmt.processRecord ⟨"BenchmarkX".data, 1000000, "ops/s"⟩ =
      some ⟨"X".data, 1000, "ns/op", ""⟩ := by
  refine (C6_normalizer_filter_and_value.1 _ _).mpr ⟨by norm_num, rfl, ?_⟩
  have hv : Bench.round2 ((1 / (1000000 : ℚ)) * 1000000000) = 1000 := by
    have e : ((1 / (1000000 : ℚ)) * 1000000000) * 100 = ((100000 : ℤ) : ℚ) := by norm_num
    unfold Bench.round2
    rw [e, rhe_intCast]
    norm_num
  rw [show Fmt.normalize_name "BenchmarkX".data = "X".data from by decide, hv]

/-- Helper: round-half-even is at least the floor. -/
theorem rhe_ge_floor (q : ℚ) : ⌊q⌋ ≤ Bench.rhe q := by
  simp only [Bench.rhe]
  split_ifs <;> omega

/-- Helper: rounding a nonnegative rational to two decimals is nonnegative. -/
theorem round2_nonneg (q : ℚ) (h : 0 ≤ q) : 0 ≤ Bench.round2 q := by
  have h1 : (0 : ℤ) ≤ ⌊q * 100⌋ := Int.floor_nonneg.mpr (by positivity)
  have h2 : (0 : ℤ) ≤ Bench.rhe (q * 100) := le_trans h1 (rhe_ge_floor (q * 100))
  unfold Bench.round2
  have : (0 : ℚ) ≤ (Bench.rhe (q * 100) : ℚ) := by exact_mod_cast h2
  positivity

/-- Helper: rounding a rational at least `0.01` to two decimals is strictly
positive. -/
theorem round2_pos (q : ℚ) (h : 1/100 ≤ q) : 0 < Bench.round2 q := by
  have h1 : (1 : ℤ) ≤ ⌊q * 100⌋ := by
    apply Int.le_floor.mpr
    push_cast
    linarith
  have h2 : (1 : ℤ) ≤ Bench.rhe (q * 100) := le_trans h1 (rhe_ge_floor (q * 100))
  unfold Bench.round2
  have : (1 : ℚ) ≤ (Bench.rhe (q * 100) : ℚ) := by exact_mod_cast h2
  have hpos : (0 : ℚ) < (Bench.rhe (q * 100) : ℚ) := by linarith
  positivity

/-- C7 counterexample: the record `score = 1e12 ops/s` passes the
`score > 0 ∧ unit == "ops/s"` filter, but its value `(1/1e12)*1e9 = 0.001`
rounds to `0.00`, so the emitted record violates `value_ns > 0`. -/
theorem C7_counterexample :
    ¬ (∀ c ∈ Fmt.benchesOf [⟨"Y".data, 1000000000000, "ops/s"⟩], 0 < c.value) := by
  intro h
  have hr : Bench.rhe ((1 / (1000000000000 : ℚ)) * 1000000000 * 100) = 0 := by
    have e : ((1 / (1000000000000 : ℚ)) * 1000000000) * 100 = (1/10 : ℚ) := by norm_num
    rw [e]
    unfold Bench.rhe
    rw [show ⌊(1/10 : ℚ)⌋ = 0 from by norm_num]
    norm_num
  have hc : Fmt.processRecord ⟨"Y".data, 1000000000000, "ops/s"⟩ =
      some ⟨"Y".data, 0, "ns/op", ""⟩ := by
    unfold Fmt.processRecord
    rw [if_pos ⟨by norm_num, rfl⟩]
    rw [show Fmt.normalize_name "Y".data = "Y".data from by decide]
    unfold Bench.round2
    rw [hr]
    norm_num
  have hmem : (⟨"Y".data, 0, "ns/op", ""⟩ : Fmt.CanonicalBench) ∈
      Fmt.benchesOf [⟨"Y".data, 1000000000000, "ops/s"⟩] := by
    simp [Fmt.benchesOf, hc]
  exact absurd (h _ hmem) (by norm_num)

/-- C7 (amended): every record the Normalizer emits has `value_ns ≥ 0`, and
`value_ns > 0` is guaranteed whenever the unrounded nanosecond value
`(1/score)*1e9` is at least `0.01` — but not in general, since a passing
record with a larger score can round to exactly zero. -/
theorem C7_value_nonneg :
    ∀ (r : Fmt.RawResult) (c : Fmt.CanonicalBench), Fmt.processRecord r = some c →
      0 ≤ c.value ∧ ((1/100 : ℚ) ≤ (1 / r.score) * 1000000000 → 0 < c.value) := by
  intro r c hc
  unfold Fmt.processRecord at hc
  split_ifs at hc with h
  · obtain rfl := (Option.some.inj hc).symm
    have hx : (0 : ℚ) ≤ (1 / r.score) * 1000000000 := by
      have := h.1
      positivity
    exact ⟨round2_nonneg _ hx, fun hge => round2_pos _ hge⟩

/-- Witness for `C7_value_nonneg` on the sample record. -/
theorem C7_value_nonneg_witness :
    (0 : ℚ) ≤ (⟨"X".data, 1000, "ns/op", ""⟩ : Fmt.CanonicalBench).value
    ∧ (0 : ℚ) < (⟨"X".data, 1000, "ns/op", ""⟩ : Fmt.CanonicalBench).value :=
  have h := C7_value_nonneg ⟨"BenchmarkX".data, 1000000, "ops/s"⟩
    ⟨"X".data, 1000, "ns/op", ""⟩ processRecord_sample
  ⟨h.1, h.2 (by norm_num)⟩

/-- Helper: evaluate `rhe` via an integer cast. -/
theorem rhe_eq_of_cast (v : ℚ) (n : ℤ) (h : v * 100 = (n : ℚ)) :
    Bench.rhe (v * 100) = n := by rw [h, rhe_intCast]

/-- Helper: `format_val` on a sub-millisecond (nanosecond-tier) value. -/
theorem format_val_lt1000 (v : ℚ) (n : ℤ) (hv : v < 1000) (hnn : ¬ v < 0)
    (h : Bench.rhe (v * 100) = n) :
    Sim.format_val v =
      Bench.natStr (n.natAbs / 100) ++ '.' :: Bench.pad2 (n.natAbs % 100) ++ "n".data := by
  unfold Sim.format_val
  rw [if_pos hv]
  simp only [Bench.fmt2, h]
  rw [if_neg hnn]
  simp

/-- Helper: round-half-even over `ℝ` at an integer point. -/
theorem rheR_intCast (n : ℤ) : Sim.rheR ((n : ℤ) : ℝ) = n := by
  simp [Sim.rheR, Int.floor_intCast]

/-- Helper: `format_valR` on a nanosecond-tier real value. -/
theorem format_valR_lt1000 (v : ℝ) (n : ℤ) (hv : v < 1000) (hnn : ¬ v < 0)
    (h : Sim.rheR (v * 100) = n) :
    Sim.format_valR v =
      Bench.natStr (n.natAbs / 100) ++ '.' :: Bench.pad2 (n.natAbs % 100) ++ "n".data := by
  unfold Sim.format_valR
  rw [if_pos hv]
  simp only [Sim.fmt2R, h]
  rw [if_neg hnn]
  simp

/-- C5: the Comparator emits the geomean row iff each side collected at
least one strictly positive value; each side's geomean is
`exp(mean(ln(values)))` over its own strictly positive values; the
geomean line carries no comparison annotation; for base `{A: 100}` and
candidate `{A: 200}` the geomean equals the single value on each side; and
a name present only in the candidate renders `N/A` on the base side with no
comparison annotation. -/
theorem C5_geomean_row :
    (∀ bm pm : List (List Char × ℚ), (Sim.geomeanPair bm pm).isSome ↔
        (Sim.baseValues bm pm ≠ [] ∧ Sim.prValues bm pm ≠ []))
    ∧ (∀ bm pm : List (List Char × ℚ),
        Sim.baseValues bm pm ≠ [] → Sim.prValues bm pm ≠ [] →
        Sim.geomeanPair bm pm =
          some (Sim.calc_geo (Sim.baseValues bm pm), Sim.calc_geo (Sim.prValues bm pm)))
    ∧ (∀ (m : List (List Char × ℚ)) (names : List (List Char)),
        Sim.collectVals m names =
          (names.map (fun n => Sim.dget m n)).filter (fun v => decide (0 < v)))
    ∧ Sim.geomeanPair [("A".data, 100)] [("A".data, 200)] = some ((100 : ℝ), (200 : ℝ))
    ∧ Sim.comparatorRows [("A".data, 100)] [("A".data, 200), ("B".data, 50)] =
        ["A                                                   100.00n ± ∞ ¹         200.00n ± ∞ ¹         ~ (p=1.000 n=1) ²".data,
         "B                                                   N/A                   50.00n ± ∞ ¹          ".data]
    ∧ Sim.geomeanLine 100 200 =
        "geomean                                             100.00n               200.00n               ".data := by
  have f100 : Sim.format_val 100 = "100.00n".data := by
    rw [format_val_lt1000 100 10000 (by norm_num) (by norm_num)
      (rhe_eq_of_cast 100 10000 (by norm_num))]
    decide
  have f200 : Sim.format_val 200 = "200.00n".data := by
    rw [format_val_lt1000 200 20000 (by norm_num) (by norm_num)
      (rhe_eq_of_cast 200 20000 (by norm_num))]
    decide
  have f50 : Sim.format_val 50 = "50.00n".data := by
    rw [format_val_lt1000 50 5000 (by norm_num) (by norm_num)
      (rhe_eq_of_cast 50 5000 (by norm_num))]
    decide
  refine ⟨?_, ?_, ?_, ?_, ?_, ?_⟩
  · intro bm pm
    unfold Sim.geomeanPair
    split_ifs with h
    · simpa using h
    · simpa using h
  · intro bm pm h1 h2
    unfold Sim.geomeanPair
    rw [if_pos ⟨h1, h2⟩]
  · intro m names
    induction names with
    | nil => rfl
    | cons n rest ih =>
      unfold Sim.collectVals at ih ⊢
      by_cases h : 0 < Sim.dget m n <;>
        simp [List.filterMap_cons, List.filter_cons, h, ih]
  · have hb : Sim.baseValues [("A".data, 100)] [("A".data, 200)] = [100] := by decide
    have hp : Sim.prValues [("A".data, 100)] [("A".data, 200)] = [200] := by decide
    have g1 : Sim.calc_geo [100] = (100 : ℝ) := by
      unfold Sim.calc_geo
      simp
      rw [Real.exp_log (by norm_num)]
    have g2 : Sim.calc_geo [200] = (200 : ℝ) := by
      unfold Sim.calc_geo
      simp
      rw [Real.exp_log (by norm_num)]
    unfold Sim.geomeanPair
    rw [hb, hp, if_pos ⟨by simp, by simp⟩, g1, g2]
  · have hnames : Sim.all_names [("A".data, (100 : ℚ))] [("A".data, 200), ("B".data, 50)] =
        ["A".data, "B".data] := by decide
    have hdA1 : Sim.dget [("A".data, (100 : ℚ))] "A".data = 100 := by decide
    have hdA2 : Sim.dget [("A".data, (200 : ℚ)), ("B".data, 50)] "A".data = 200 := by decide
    have hdB1 : Sim.dget [("A".data, (100 : ℚ))] "B".data = 0 := by decide
    have hdB2 : Sim.dget [("A".data, (200 : ℚ)), ("B".data, 50)] "B".data = 50 := by decide
    have fcA1 : Sim.format_cell 100 = "100.00n ± ∞ ¹".data := by
      unfold Sim.format_cell
      rw [if_neg (show ¬ (100 : ℚ) = 0 by norm_num), f100]
      decide
    have fcA2 : Sim.format_cell 200 = "200.00n ± ∞ ¹".data := by
      unfold Sim.format_cell
      rw [if_neg (show ¬ (200 : ℚ) = 0 by norm_num), f200]
      decide
    have fcB2 : Sim.format_cell 50 = "50.00n ± ∞ ¹".data := by
      unfold Sim.format_cell
      rw [if_neg (show ¬ (50 : ℚ) = 0 by norm_num), f50]
      decide
    have csA : Sim.compStr 100 200 = "~ (p=1.000 n=1) ²".data := by
      unfold Sim.compStr
      rw [if_pos ⟨by norm_num, by norm_num⟩]
    have csB : Sim.compStr 0 50 = [] := by
      unfold Sim.compStr
      rw [if_neg (fun hc => lt_irrefl 0 hc.1)]
    unfold Sim.comparatorRows Sim.rowFor
    rw [hnames]
    simp only [List.map_cons, List.map_nil]
    rw [hdA1, hdA2, hdB1, hdB2, fcA1, fcA2, fcB2, csA, csB,
      show Sim.format_cell 0 = "N/A".data from by decide]
    decide
  · have gR1 : Sim.format_valR 100 = "100.00n".data := by
      rw [format_valR_lt1000 100 10000 (by norm_num) (by norm_num)
        (by rw [show ((100 : ℝ) * 100) = ((10000 : ℤ) : ℝ) from by norm_num, rheR_intCast])]
      decide
    have gR2 : Sim.format_valR 200 = "200.00n".data := by
      rw [format_valR_lt1000 200 20000 (by norm_num) (by norm_num)
        (by rw [show ((200 : ℝ) * 100) = ((20000 : ℤ) : ℝ) from by norm_num, rheR_intCast])]
      decide
    unfold Sim.geomeanLine
    rw [gR1, gR2]
    decide

/-- Witness for `C5_geomean_row`: the geomean-emission conjunct applied to
the one-benchmark instance. -/
theorem C5_geomean_row_witness :
    Sim.geomeanPair [("A".data, 100)] [("A".data, 200)] =
      some (Sim.calc_geo (Sim.baseValues [("A".data, 100)] [("A".data, 200)]),
        Sim.calc_geo (Sim.prValues [("A".data, 100)] [("A".data, 200)])) :=
  C5_geomean_row.2.1 _ _ (by decide) (by decide)

/-- C10 counterexample: a record with value 0 is not fully indistinguishable
from an absent name — the name still contributes a row.  With base
`{A: 100, B: 0}` versus base `{A: 100}` (candidate `{A: 200}` in both), the
first output has an extra `B` row. -/
theorem C10_counterexample :
    Sim.comparatorRows [("A".data, 100), ("B".data, 0)] [("A".data, 200)] ≠
      Sim.comparatorRows [("A".data, 100)] [("A".data, 200)] := by
  intro h
  have h1 : (Sim.comparatorRows [("A".data, 100), ("B".data, 0)] [("A".data, 200)]).length = 2 := by
    unfold Sim.comparatorRows
    rw [List.length_map]
    decide
  have h2 : (Sim.comparatorRows [("A".data, 100)] [("A".data, 200)]).length = 1 := by
    unfold Sim.comparatorRows
    rw [List.length_map]
    decide
  rw [h] at h1
  rw [h1] at h2
  exact absurd h2 (by norm_num)

/-- C10 (amended): a record whose stored value is 0 behaves on its own side
exactly like an absent name as far as rendering and statistics go — the
cell renders `N/A` with no confidence marker, the row gets no comparison
annotation, and the value is excluded from that side's geomean collection —
but the name itself still contributes a row to the table, so the full
output is distinguishable from the truly-absent case when the name occurs
on neither other side. -/
theorem C10_zero_value_renders_na :
    (∀ (bm pm : List (List Char × ℚ)) (n : List Char), Sim.dget bm n = 0 →
      Sim.rowFor bm pm n = Sim.rowLine n "N/A".data (Sim.format_cell (Sim.dget pm n)) []
      ∧ (∀ rest : List (List Char), Sim.collectVals bm (n :: rest) = Sim.collectVals bm rest))
    ∧ (∀ pv : ℚ, Sim.compStr 0 pv = []) := by
  have hcs : ∀ pv : ℚ, Sim.compStr 0 pv = [] := by
    intro pv
    unfold Sim.compStr
    rw [if_neg (fun hc => lt_irrefl 0 hc.1)]
  refine ⟨?_, hcs⟩
  intro bm pm n h
  constructor
  · unfold Sim.rowFor
    rw [h, hcs]
    rw [show Sim.format_cell 0 = "N/A".data from by decide]
  · intro rest
    unfold Sim.collectVals
    rw [List.filterMap_cons]
    simp [h]

/-- Witness for `C10_zero_value_renders_na` at a concrete zero-valued
record. -/
theorem C10_zero_value_renders_na_witness :
    Sim.rowFor [("A".data, 100), ("B".data, 0)] [("A".data, 200)] "B".data =
      Sim.rowLine "B".data "N/A".data
        (Sim.format_cell (Sim.dget [("A".data, 200)] "B".data)) []
    ∧ Sim.collectVals [("A".data, 100), ("B".data, 0)] ["B".data, "A".data] =
        Sim.collectVals [("A".data, 100), ("B".data, 0)] ["A".data] :=
  have h := C10_zero_value_renders_na.1 [("A".data, 100), ("B".data, 0)]
    [("A".data, 200)] "B".data (by decide)
  ⟨h.1, h.2 ["A".data]⟩

/-- Helper: round-half-even when the fractional part is below one half. -/
theorem rhe_eq_down (q : ℚ) (f : ℤ) (hf : ⌊q⌋ = f) (h : q - f < 1/2) :
    Bench.rhe q = f := by
  simp only [Bench.rhe, hf]
  rw [if_pos h]

/-- Helper: round-half-even when the fractional part is above one half. -/
theorem rhe_eq_up (q : ℚ) (f : ℤ) (hf : ⌊q⌋ = f) (h : 1/2 < q - f) :
    Bench.rhe q = f + 1 := by
  simp only [Bench.rhe, hf]
  rw [if_neg (by linarith), if_pos h]

/-- Helper: the binade search of `FP.scaleUp` reaches exactly the scaling
`2^k` that lifts the value to at least `2^52`. -/
theorem scaleUp_spec (k : ℕ) : ∀ (fuel : ℕ) (x : ℚ) (e : ℤ), k ≤ fuel → 0 < x →
    (∀ j < k, x * 2 ^ j < 2 ^ 52) → 2 ^ 52 ≤ x * 2 ^ k →
    FP.scaleUp fuel x e = (x * 2 ^ k, e + k) := by
  induction k with
  | zero =>
    intro fuel x e _ _ _ hbig
    cases fuel with
    | zero => simp [FP.scaleUp]
    | succ m =>
      simp only [FP.scaleUp]
      rw [if_neg (not_lt.mpr (by simpa using hbig))]
      simp
  | succ k ih =>
    intro fuel x e hk hx hsmall hbig
    obtain ⟨m, rfl⟩ : ∃ m, fuel = m + 1 := ⟨fuel - 1, by omega⟩
    have hx0 : x < 2 ^ 52 := by simpa using hsmall 0 (by omega)
    simp only [FP.scaleUp]
    rw [if_pos hx0]
    rw [ih m (x * 2) (e + 1) (by omega) (by positivity)
      (fun j hj => by
        have := hsmall (j + 1) (by omega)
        calc x * 2 * 2 ^ j = x * 2 ^ (j + 1) := by ring
          _ < 2 ^ 52 := this)
      (by calc (2 : ℚ) ^ 52 ≤ x * 2 ^ (k + 1) := hbig
        _ = x * 2 * 2 ^ k := by ring)]
    simp only [Prod.mk.injEq]
    exact ⟨by ring, by push_cast; ring⟩

/-- Helper: `FP.scaleDown` does nothing below `2^53`. -/
theorem scaleDown_noop (fuel : ℕ) (x : ℚ) (e : ℤ) (h : x < 2 ^ 53) :
    FP.scaleDown fuel x e = (x, e) := by
  cases fuel with
  | zero => rfl
  | succ m =>
    simp only [FP.scaleDown]
    rw [if_neg (not_le.mpr h)]

/-- Helper: closed form of `FP.fl` on a positive value whose mantissa window
is reached by scaling up `k ≤ 200` times. -/
theorem fl_eval (q : ℚ) (k : ℕ) (hq : 0 < q) (hk : k ≤ 200)
    (hsmall : ∀ j < k, q * 2 ^ j < 2 ^ 52)
    (hbig : 2 ^ 52 ≤ q * 2 ^ k) (hlt : q * 2 ^ k < 2 ^ 53) :
    FP.fl q = (Bench.rhe (q * 2 ^ k) : ℚ) / 2 ^ k := by
  simp only [FP.fl]
  rw [if_neg (ne_of_gt hq), abs_of_pos hq,
    scaleUp_spec k 200 q 0 hk hq hsmall hbig, scaleDown_noop 200 _ _ hlt,
    if_neg (not_lt.mpr hq.le)]
  simp [zpow_natCast]

/-- Helper: the minimality side condition of `fl_eval` follows from one
inequality at the last exponent below the window. -/
theorem small_chain (q : ℚ) (k : ℕ) (hq : 0 < q) (h : q * 2 ^ (k - 1) < 2 ^ 52) :
    ∀ j < k, q * 2 ^ j < 2 ^ 52 := by
  intro j hj
  have hp : (2 : ℚ) ^ j ≤ 2 ^ (k - 1) := by
    apply pow_le_pow_right₀ (by norm_num)
    omega
  calc q * 2 ^ j ≤ q * 2 ^ (k - 1) := mul_le_mul_of_nonneg_left hp hq.le
    _ < 2 ^ 52 := h

/-- Helper: double rounding commutes with negation. -/
theorem fl_neg (q : ℚ) : FP.fl (-q) = -FP.fl q := by
  by_cases h0 : q = 0
  · simp [h0, FP.fl]
  rcases lt_or_gt_of_ne h0 with hq | hq
  · simp only [FP.fl]
    rw [if_neg (neg_ne_zero.mpr h0), if_neg h0, abs_neg,
      if_neg (not_lt.mpr (le_of_lt (neg_pos.mpr hq))), if_pos hq]
    ring
  · simp only [FP.fl]
    rw [if_neg (neg_ne_zero.mpr h0), if_neg h0, abs_neg,
      if_pos (neg_lt_zero.mpr hq), if_neg (not_lt.mpr hq.le)]
    ring

/-- The double nearest `1e-3` (the literal in the source). -/
theorem fl_milli : FP.fl (1/1000 : ℚ) = (1152921504606847/1152921504606846976 : ℚ) := by
  rw [fl_eval (1/1000 : ℚ) 62 (by norm_num) (by norm_num)
    (small_chain (1/1000 : ℚ) 62 (by norm_num) (by norm_num)) (by norm_num) (by norm_num)]
  rw [show ((1/1000 : ℚ) * 2 ^ 62 : ℚ) = (576460752303423488/125 : ℚ) from by norm_num,
    rhe_eq_up (576460752303423488/125 : ℚ) 4611686018427387 (by norm_num) (by norm_num)]
  norm_num

/-- `float("1.00")` is exact. -/
theorem fl_one : FP.fl (1 : ℚ) = (1 : ℚ) := by
  rw [fl_eval (1 : ℚ) 52 (by norm_num) (by norm_num)
    (small_chain (1 : ℚ) 52 (by norm_num) (by norm_num)) (by norm_num) (by norm_num)]
  rw [show ((1 : ℚ) * 2 ^ 52 : ℚ) = (4503599627370496 : ℚ) from by norm_num,
    rhe_eq_down (4503599627370496 : ℚ) 4503599627370496 (by norm_num) (by norm_num)]
  norm_num

/-- `1e-3` is already a double, so the product `1.0 * 1e-3` rounds to itself. -/
theorem fl_a0 : FP.fl (1152921504606847/1152921504606846976 : ℚ) =
    (1152921504606847/1152921504606846976 : ℚ) := by
  rw [fl_eval (1152921504606847/1152921504606846976 : ℚ) 62 (by norm_num) (by norm_num)
    (small_chain (1152921504606847/1152921504606846976 : ℚ) 62 (by norm_num) (by norm_num))
    (by norm_num) (by norm_num)]
  rw [show ((1152921504606847/1152921504606846976 : ℚ) * 2 ^ 62 : ℚ) = (4611686018427388 : ℚ)
      from by norm_num,
    rhe_eq_down (4611686018427388 : ℚ) 4611686018427388 (by norm_num) (by norm_num)]
  norm_num

/-- The double nearest `1.1`. -/
theorem fl_eleven : FP.fl (11/10 : ℚ) = (2476979795053773/2251799813685248 : ℚ) := by
  rw [fl_eval (11/10 : ℚ) 52 (by norm_num) (by norm_num)
    (small_chain (11/10 : ℚ) 52 (by norm_num) (by norm_num)) (by norm_num) (by norm_num)]
  rw [show ((11/10 : ℚ) * 2 ^ 52 : ℚ) = (24769797950537728/5 : ℚ) from by norm_num,
    rhe_eq_up (24769797950537728/5 : ℚ) 4953959590107545 (by norm_num) (by norm_num)]
  norm_num

/-- Rounding the exact product `float(1.1) * float(1e-3)`. -/
theorem fl_b0 : FP.fl (2855763272194155485723588983731/2596148429267413814265248164610048 : ℚ) =
    (5072854620270127/4611686018427387904 : ℚ) := by
  rw [fl_eval (2855763272194155485723588983731/2596148429267413814265248164610048 : ℚ) 62
    (by norm_num) (by norm_num)
    (small_chain (2855763272194155485723588983731/2596148429267413814265248164610048 : ℚ) 62
      (by norm_num) (by norm_num)) (by norm_num) (by norm_num)]
  rw [show ((2855763272194155485723588983731/2596148429267413814265248164610048 : ℚ) * 2 ^ 62 : ℚ)
      = (2855763272194155485723588983731/562949953421312 : ℚ) from by norm_num,
    rhe_eq_down (2855763272194155485723588983731/562949953421312 : ℚ) 5072854620270127
      (by norm_num) (by norm_num)]
  norm_num

/-- The double nearest `0.85`. -/
theorem fl_pt85 : FP.fl (17/20 : ℚ) = (7656119366529843/9007199254740992 : ℚ) := by
  rw [fl_eval (17/20 : ℚ) 53 (by norm_num) (by norm_num)
    (small_chain (17/20 : ℚ) 53 (by norm_num) (by norm_num)) (by norm_num) (by norm_num)]
  rw [show ((17/20 : ℚ) * 2 ^ 53 : ℚ) = (38280596832649216/5 : ℚ) from by norm_num,
    rhe_eq_down (38280596832649216/5 : ℚ) 7656119366529843 (by norm_num) (by norm_num)]
  norm_num

/-- Rounding the exact product `float(0.85) * float(1e-3)`. -/
theorem fl_c0 : FP.fl (8826904659509206921664407635021/10384593717069655257060992658440192 : ℚ) =
    (7839866231326559/9223372036854775808 : ℚ) := by
  rw [fl_eval (8826904659509206921664407635021/10384593717069655257060992658440192 : ℚ) 63
    (by norm_num) (by norm_num)
    (small_chain (8826904659509206921664407635021/10384593717069655257060992658440192 : ℚ) 63
      (by norm_num) (by norm_num)) (by norm_num) (by norm_num)]
  rw [show ((8826904659509206921664407635021/10384593717069655257060992658440192 : ℚ) * 2 ^ 63 : ℚ)
      = (8826904659509206921664407635021/1125899906842624 : ℚ) from by norm_num,
    rhe_eq_down (8826904659509206921664407635021/1125899906842624 : ℚ) 7839866231326559
      (by norm_num) (by norm_num)]
  norm_num

/-- The subtraction step of the boundary diff is exact in doubles. -/
theorem fl_s1 : FP.fl (461168601842739/4611686018427387904 : ℚ) =
    (461168601842739/4611686018427387904 : ℚ) := by
  rw [fl_eval (461168601842739/4611686018427387904 : ℚ) 66 (by norm_num) (by norm_num)
    (small_chain (461168601842739/4611686018427387904 : ℚ) 66 (by norm_num) (by norm_num))
    (by norm_num) (by norm_num)]
  rw [show ((461168601842739/4611686018427387904 : ℚ) * 2 ^ 66 : ℚ) = (7378697629483824 : ℚ)
      from by norm_num,
    rhe_eq_down (7378697629483824 : ℚ) 7378697629483824 (by norm_num) (by norm_num)]
  norm_num

/-- Rounding the exact quotient of the boundary diff. -/
theorem fl_s2 : FP.fl (461168601842739/4611686018427388 : ℚ) =
    (7205759403792797/72057594037927936 : ℚ) := by
  rw [fl_eval (461168601842739/4611686018427388 : ℚ) 56 (by norm_num) (by norm_num)
    (small_chain (461168601842739/4611686018427388 : ℚ) 56 (by norm_num) (by norm_num))
    (by norm_num) (by norm_num)]
  rw [show ((461168601842739/4611686018427388 : ℚ) * 2 ^ 56 : ℚ) =
      (8307674973655727981466721714176/1152921504606847 : ℚ) from by norm_num,
    rhe_eq_up (8307674973655727981466721714176/1152921504606847 : ℚ) 7205759403792796
      (by norm_num) (by norm_num)]
  norm_num

/-- Rounding the final `* 100` of the boundary diff: the result is strictly
above 10. -/
theorem fl_s3 : FP.fl (180143985094819925/18014398509481984 : ℚ) =
    (5629499534213123/562949953421312 : ℚ) := by
  rw [fl_eval (180143985094819925/18014398509481984 : ℚ) 49 (by norm_num) (by norm_num)
    (small_chain (180143985094819925/18014398509481984 : ℚ) 49 (by norm_num) (by norm_num))
    (by norm_num) (by norm_num)]
  rw [show ((180143985094819925/18014398509481984 : ℚ) * 2 ^ 49 : ℚ) =
      (180143985094819925/32 : ℚ) from by norm_num,
    rhe_eq_up (180143985094819925/32 : ℚ) 5629499534213122 (by norm_num) (by norm_num)]
  norm_num

/-- The subtraction step of the faster-case diff is exact in doubles. -/
theorem fl_t1 : FP.fl (1383505805528217/9223372036854775808 : ℚ) =
    (1383505805528217/9223372036854775808 : ℚ) := by
  rw [fl_eval (1383505805528217/9223372036854775808 : ℚ) 65 (by norm_num) (by norm_num)
    (small_chain (1383505805528217/9223372036854775808 : ℚ) 65 (by norm_num) (by norm_num))
    (by norm_num) (by norm_num)]
  rw [show ((1383505805528217/9223372036854775808 : ℚ) * 2 ^ 65 : ℚ) = (5534023222112868 : ℚ)
      from by norm_num,
    rhe_eq_down (5534023222112868 : ℚ) 5534023222112868 (by norm_num) (by norm_num)]
  norm_num

/-- Rounding the exact quotient of the faster-case diff. -/
theorem fl_t2 : FP.fl (1383505805528217/9223372036854776 : ℚ) =
    (2702159776422299/18014398509481984 : ℚ) := by
  rw [fl_eval (1383505805528217/9223372036854776 : ℚ) 55 (by norm_num) (by norm_num)
    (small_chain (1383505805528217/9223372036854776 : ℚ) 55 (by norm_num) (by norm_num))
    (by norm_num) (by norm_num)]
  rw [show ((1383505805528217/9223372036854776 : ℚ) * 2 ^ 55 : ℚ) =
      (6230756230241795986100041285632/1152921504606847 : ℚ) from by norm_num,
    rhe_eq_up (6230756230241795986100041285632/1152921504606847 : ℚ) 5404319552844597
      (by norm_num) (by norm_num)]
  norm_num

/-- Rounding the final `* 100` of the faster-case diff. -/
theorem fl_t3 : FP.fl (67553994410557475/4503599627370496 : ℚ) =
    (2111062325329921/140737488355328 : ℚ) := by
  rw [fl_eval (67553994410557475/4503599627370496 : ℚ) 49 (by norm_num) (by norm_num)
    (small_chain (67553994410557475/4503599627370496 : ℚ) 49 (by norm_num) (by norm_num))
    (by norm_num) (by norm_num)]
  rw [show ((67553994410557475/4503599627370496 : ℚ) * 2 ^ 49 : ℚ) =
      (67553994410557475/8 : ℚ) from by norm_num,
    rhe_eq_down (67553994410557475/8 : ℚ) 8444249301319684 (by norm_num) (by norm_num)]
  norm_num

/-- `110.0 - 100.0` is exact in doubles. -/
theorem fl_u1 : FP.fl (10 : ℚ) = (10 : ℚ) := by
  rw [fl_eval (10 : ℚ) 49 (by norm_num) (by norm_num)
    (small_chain (10 : ℚ) 49 (by norm_num) (by norm_num)) (by norm_num) (by norm_num)]
  rw [show ((10 : ℚ) * 2 ^ 49 : ℚ) = (5629499534213120 : ℚ) from by norm_num,
    rhe_eq_down (5629499534213120 : ℚ) 5629499534213120 (by norm_num) (by norm_num)]
  norm_num

/-- The double nearest `0.1` (for the unitless `10/100` step). -/
theorem fl_u2 : FP.fl (1/10 : ℚ) = (3602879701896397/36028797018963968 : ℚ) := by
  rw [fl_eval (1/10 : ℚ) 56 (by norm_num) (by norm_num)
    (small_chain (1/10 : ℚ) 56 (by norm_num) (by norm_num)) (by norm_num) (by norm_num)]
  rw [show ((1/10 : ℚ) * 2 ^ 56 : ℚ) = (36028797018963968/5 : ℚ) from by norm_num,
    rhe_eq_up (36028797018963968/5 : ℚ) 7205759403792793 (by norm_num) (by norm_num)]
  norm_num

/-- `float(0.1) * 100` rounds back to exactly 10. -/
theorem fl_u3 : FP.fl (90071992547409925/9007199254740992 : ℚ) = (10 : ℚ) := by
  rw [fl_eval (90071992547409925/9007199254740992 : ℚ) 49 (by norm_num) (by norm_num)
    (small_chain (90071992547409925/9007199254740992 : ℚ) 49 (by norm_num) (by norm_num))
    (by norm_num) (by norm_num)]
  rw [show ((90071992547409925/9007199254740992 : ℚ) * 2 ^ 49 : ℚ) =
      (90071992547409925/16 : ℚ) from by norm_num,
    rhe_eq_down (90071992547409925/16 : ℚ) 5629499534213120 (by norm_num) (by norm_num)]
  norm_num

/-- The double `parse_val` yields for the token `1.00m`. -/
theorem parseMilli_one : FP.parseMilli 1 = (1152921504606847/1152921504606846976 : ℚ) := by
  unfold FP.parseMilli
  rw [fl_one, fl_milli,
    show ((1 : ℚ) * (1152921504606847/1152921504606846976 : ℚ)) =
      (1152921504606847/1152921504606846976 : ℚ) from by norm_num]
  exact fl_a0

/-- The double `parse_val` yields for the token `1.10m`. -/
theorem parseMilli_eleven : FP.parseMilli (11/10) = (5072854620270127/4611686018427387904 : ℚ) := by
  unfold FP.parseMilli
  rw [fl_eleven, fl_milli,
    show ((2476979795053773/2251799813685248 : ℚ) * (1152921504606847/1152921504606846976 : ℚ)) =
      (2855763272194155485723588983731/2596148429267413814265248164610048 : ℚ) from by norm_num]
  exact fl_b0

/-- The double `parse_val` yields for the token `0.85m`. -/
theorem parseMilli_pt85 : FP.parseMilli (17/20) = (7839866231326559/9223372036854775808 : ℚ) := by
  unfold FP.parseMilli
  rw [fl_pt85, fl_milli,
    show ((7656119366529843/9007199254740992 : ℚ) * (1152921504606847/1152921504606846976 : ℚ)) =
      (8826904659509206921664407635021/10384593717069655257060992658440192 : ℚ) from by norm_num]
  exact fl_c0

/-- The program's diff for base token `1.00m` against candidate `1.10m`:
`10.000000000000005`, strictly above 10. -/
theorem diffF_boundary : FP.diffF (FP.parseMilli 1) (FP.parseMilli (11/10)) =
    (5629499534213123/562949953421312 : ℚ) := by
  rw [parseMilli_one, parseMilli_eleven]
  unfold FP.diffF
  rw [show ((5072854620270127/4611686018427387904 : ℚ) -
      (1152921504606847/1152921504606846976 : ℚ)) =
      (461168601842739/4611686018427387904 : ℚ) from by norm_num, fl_s1]
  rw [show ((461168601842739/4611686018427387904 : ℚ) /
      (1152921504606847/1152921504606846976 : ℚ)) =
      (461168601842739/4611686018427388 : ℚ) from by norm_num, fl_s2]
  rw [show ((7205759403792797/72057594037927936 : ℚ) * 100) =
      (180143985094819925/18014398509481984 : ℚ) from by norm_num]
  exact fl_s3

/-- The program's diff for base token `1.00m` against candidate `0.85m`:
`-15.000000000000007`. -/
theorem diffF_faster : FP.diffF (FP.parseMilli 1) (FP.parseMilli (17/20)) =
    -(2111062325329921/140737488355328 : ℚ) := by
  rw [parseMilli_one, parseMilli_pt85]
  unfold FP.diffF
  rw [show ((7839866231326559/9223372036854775808 : ℚ) -
      (1152921504606847/1152921504606846976 : ℚ)) =
      -(1383505805528217/9223372036854775808 : ℚ) from by norm_num, fl_neg, fl_t1]
  rw [show (-(1383505805528217/9223372036854775808 : ℚ) /
      (1152921504606847/1152921504606846976 : ℚ)) =
      -(1383505805528217/9223372036854776 : ℚ) from by norm_num, fl_neg, fl_t2]
  rw [show (-(2702159776422299/18014398509481984 : ℚ) * 100) =
      -(67553994410557475/4503599627370496 : ℚ) from by norm_num, fl_neg, fl_t3]

/-- The program's diff for unitless count tokens `100` against `110` is
exactly 10 even in doubles. -/
theorem diffF_counts : FP.diffF 100 110 = 10 := by
  unfold FP.diffF
  rw [show ((110 : ℚ) - 100) = (10 : ℚ) from by norm_num, fl_u1]
  rw [show ((10 : ℚ) / 100) = (1/10 : ℚ) from by norm_num, fl_u2]
  rw [show ((3602879701896397/36028797018963968 : ℚ) * 100) =
      (90071992547409925/9007199254740992 : ℚ) from by norm_num]
  exact fl_u3

/-- The boundary diff still formats as `+10.00`. -/
theorem fmtPlus2_boundaryF :
    Bench.fmtPlus2 (5629499534213123/562949953421312 : ℚ) = "+10.00".data := by
  have h : Bench.rhe ((5629499534213123/562949953421312 : ℚ) * 100) = 1000 := by
    rw [show ((5629499534213123/562949953421312 : ℚ) * 100) =
      (140737488355328075/140737488355328 : ℚ) from by norm_num]
    exact rhe_eq_down _ 1000 (by norm_num) (by norm_num)
  simp only [Bench.fmtPlus2, h]
  norm_num
  decide

/-- The boundary diff gets the slower glyph, since it exceeds 10. -/
theorem get_icon_boundaryF :
    Reflow.get_icon (5629499534213123/562949953421312 : ℚ) = "🐌".data := by
  unfold Reflow.get_icon
  rw [if_pos (by norm_num : (5629499534213123/562949953421312 : ℚ) > 10)]

/-- The faster-case diff formats as `-15.00`. -/
theorem fmtPlus2_fasterF :
    Bench.fmtPlus2 (-(2111062325329921/140737488355328 : ℚ)) = "-15.00".data := by
  have h : Bench.rhe (-(2111062325329921/140737488355328 : ℚ) * 100) = -1500 := by
    rw [show (-(2111062325329921/140737488355328 : ℚ) * 100) =
      (-52776558133248025/35184372088832 : ℚ) from by norm_num,
      rhe_eq_up (-52776558133248025/35184372088832 : ℚ) (-1501) (by norm_num) (by norm_num)]
    norm_num
  simp only [Bench.fmtPlus2, h]
  norm_num
  decide

/-- The faster-case diff gets the faster glyph. -/
theorem get_icon_fasterF :
    Reflow.get_icon (-(2111062325329921/140737488355328 : ℚ)) = "🚀".data := by
  unfold Reflow.get_icon
  rw [if_neg (by norm_num), if_pos (by norm_num)]

/-- C2 counterexample: for the claim's own boundary example — base token
`1.00m` (1e-3 s) against candidate `1.10m` (1.1e-3 s) — the program's
IEEE-double evaluation of `(second - first)/first * 100` is
`5629499534213123/2^49 = 10.000000000000005`, strictly greater than 10, so
the emitted glyph is the slower glyph, not the neutral glyph (the
percentage still formats as `+10.00`). -/
theorem C2_counterexample :
    10 < FP.diffF (FP.parseMilli 1) (FP.parseMilli (11/10))
    ∧ Reflow.get_icon (FP.diffF (FP.parseMilli 1) (FP.parseMilli (11/10))) = "🐌".data
    ∧ Bench.fmtPlus2 (FP.diffF (FP.parseMilli 1) (FP.parseMilli (11/10))) = "+10.00".data
    ∧ ("🐌".data : List Char) ≠ "➡️".data := by
  rw [diffF_boundary]
  exact ⟨by norm_num, get_icon_boundaryF, fmtPlus2_boundaryF, by decide⟩

/-- C2 (amended): the appended column is `{diff:+.2f}% {icon}` for the
computed `diff = (second - first)/first * 100`, and over any computed value
the icon is the slower glyph iff `diff > 10` strictly, the faster glyph iff
`diff < -10`, and the neutral glyph otherwise.  The computation, however,
is IEEE-double arithmetic: base token `1.00m` against candidate `1.10m`
computes `10.000000000000005 > 10` and therefore the slower glyph (though
it still formats as `+10.00`); a computed diff of exactly 10 — realizable,
e.g. unitless counts `100` against `110` — gets the neutral glyph; and base
`1.00m` against candidate `0.85m` computes `-15.000000000000007`, formatted
`-15.00` with the faster glyph. -/
theorem C2_diff_and_icon_double :
    (∀ (dcs : ℤ) (line : List Char) (a b : ℚ),
      Reflow.isFence line = false → Reflow.isFootnote line = false →
      Reflow.isHeader line = false → Reflow.isMeta line = false →
      Reflow.extract_two_numbers (Bench.splitWs (Reflow.strip_worker_suffix line)) =
        Except.ok [a, b] →
      a ≠ 0 →
      Reflow.processLine true dcs line = Except.ok (true,
        Reflow.appendAligned dcs (Bench.rstrip (Reflow.strip_worker_suffix line))
          (Bench.fmtPlus2 ((b - a) / a * 100) ++ "% ".data ++
            Reflow.get_icon ((b - a) / a * 100))))
    ∧ (∀ d : ℚ, (Reflow.get_icon d = "🐌".data ↔ 10 < d)
        ∧ (Reflow.get_icon d = "🚀".data ↔ d < -10)
        ∧ (Reflow.get_icon d = "➡️".data ↔ (d ≤ 10 ∧ -10 ≤ d)))
    ∧ (FP.diffF (FP.parseMilli 1) (FP.parseMilli (11/10)) =
          (5629499534213123/562949953421312 : ℚ)
        ∧ 10 < FP.diffF (FP.parseMilli 1) (FP.parseMilli (11/10))
        ∧ Reflow.get_icon (FP.diffF (FP.parseMilli 1) (FP.parseMilli (11/10))) = "🐌".data
        ∧ Bench.fmtPlus2 (FP.diffF (FP.parseMilli 1) (FP.parseMilli (11/10))) = "+10.00".data)
    ∧ (FP.diffF (FP.parseMilli 1) (FP.parseMilli (17/20)) =
          -(2111062325329921/140737488355328 : ℚ)
        ∧ FP.diffF (FP.parseMilli 1) (FP.parseMilli (17/20)) < -10
        ∧ Reflow.get_icon (FP.diffF (FP.parseMilli 1) (FP.parseMilli (17/20))) = "🚀".data
        ∧ Bench.fmtPlus2 (FP.diffF (FP.parseMilli 1) (FP.parseMilli (17/20))) = "-15.00".data)
    ∧ (FP.diffF 100 110 = 10
        ∧ Reflow.get_icon 10 = "➡️".data
        ∧ Bench.fmtPlus2 10 = "+10.00".data) := by
  refine ⟨fun dcs line a b hf hfo hh hm hex ha =>
      processLine_data dcs line a b hf hfo hh hm hex ha, ?_, ?_, ?_,
      diffF_counts, get_icon_ten, fmtPlus2_ten⟩
  · intro d
    unfold Reflow.get_icon
    split_ifs with h1 h2
    · exact ⟨⟨fun _ => h1, fun _ => rfl⟩,
        ⟨fun h => absurd h (by decide), fun h => absurd h1 (by linarith)⟩,
        ⟨fun h => absurd h (by decide), fun h => absurd h1 (by linarith [h.1])⟩⟩
    · exact ⟨⟨fun h => absurd h (by decide), fun h => absurd h h1⟩,
        ⟨fun _ => h2, fun _ => rfl⟩,
        ⟨fun h => absurd h (by decide), fun h => absurd h2 (by linarith [h.2])⟩⟩
    · push_neg at h1 h2
      exact ⟨⟨fun h => absurd h (by decide), fun h => absurd h (by linarith)⟩,
        ⟨fun h => absurd h (by decide), fun h => absurd h (by linarith)⟩,
        ⟨fun _ => ⟨h1, h2⟩, fun _ => rfl⟩⟩
  · rw [diffF_boundary]
    exact ⟨rfl, by norm_num, get_icon_boundaryF, fmtPlus2_boundaryF⟩
  · rw [diffF_faster]
    exact ⟨rfl, by norm_num, get_icon_fasterF, fmtPlus2_fasterF⟩

/-- Witness for `C2_diff_and_icon_double` on a concrete data line away from
the glyph boundary (the double evaluation of this row also yields `+5.00%`
with the neutral glyph). -/
theorem C2_diff_and_icon_double_witness :
    Reflow.processLine true 47 "Gamma 1.00m 1.05m".data = Except.ok (true,
      Reflow.appendAligned 47 (Bench.rstrip (Reflow.strip_worker_suffix "Gamma 1.00m 1.05m".data))
        (Bench.fmtPlus2 ((21/20000 - 1/1000) / (1/1000) * 100) ++ "% ".data ++
          Reflow.get_icon ((21/20000 - 1/1000) / (1/1000) * 100))) :=
  C2_diff_and_icon_double.1 47 "Gamma 1.00m 1.05m".data (1/1000) (21/20000)
    (by decide) (by decide) (by decide) (by decide)
    (by
      rw [show Bench.splitWs (Reflow.strip_worker_suffix "Gamma 1.00m 1.05m".data) =
        ["Gamma".data, "1.00m".data, "1.05m".data] from by decide]
      simp [Reflow.extract_two_numbers, Reflow.etnGo, Reflow.parse_val,
        Reflow.clean_superscripts, Bench.stripWs, Bench.beforeFirst, Bench.lstrip,
        Bench.rstrip, Reflow.numMatch, Reflow.unitValue, Reflow.ratOfDigits,
        Reflow.digitsToNat, Reflow.supers, Reflow.isAlphaMu, Bench.isSpace]
      norm_num)
    (by norm_num)
